import Mathlib

/-!
# Reconciliation state machine of the YTsaurus operator components

A shallow embedding of `pkg/components/init_job.go`, `pkg/components/master.go`
and `pkg/components/tablet_node.go`.

Every method that talks to a collaborator is a function `World → result × World`.
The `World` holds the durable facts the components observe (Condition Ledger,
Resource Store, cluster-level state, server wrapper, YT cluster), the in-memory
memo fields of the component objects, and a `trace` of every call to the Condition
Ledger, the Resource Store, the cluster-level state, the Server Wrapper, the Cluster
Client Component and the YT client, in the order the code issues them (the Config
Generator is a pure function and is not logged).  The outcome of every fallible collaborator call of
one pass is supplied by an `Env`.  A Go `error` is `Option GoError` (`none` is
`nil`); a Go `panic` is the `panicked` constructor of `Outcome`.
-/

namespace YtOp

/-! ## Data model -/

/-- The five values of `SyncStatus`. -/
inductive SyncStatus where
  | SyncStatusReady
  | SyncStatusPending
  | SyncStatusBlocked
  | SyncStatusUpdating
  | SyncStatusNeedFullUpdate
  deriving DecidableEq, Repr

export SyncStatus (SyncStatusReady SyncStatusPending SyncStatusBlocked SyncStatusUpdating
  SyncStatusNeedFullUpdate)

/-- A non-nil Go `error` value. -/
abbrev GoError := String

/-- The three values of `metav1.ConditionStatus`. -/
inductive ConditionStatus where
  | ConditionTrue
  | ConditionFalse
  | ConditionUnknown
  deriving DecidableEq, Repr

export ConditionStatus (ConditionTrue ConditionFalse ConditionUnknown)

/-- The fields of `metav1.Condition` the components fill in. -/
structure Condition where
  type : String
  status : ConditionStatus
  reason : String
  message : String
  deriving DecidableEq, Repr

/-- Modelled from the spec: `ClusterState ∈ {Running, Updating, …}`; the type `ytv1.ClusterState`
is declared outside the given sources, every other value is `Other`. -/
inductive ClusterState where
  | ClusterStateRunning
  | ClusterStateUpdating
  | Other
  deriving DecidableEq, Repr

export ClusterState (ClusterStateRunning ClusterStateUpdating)

/-- Modelled from the spec: `UpdateState ∈ {…, WaitingForPodsRemoval, …}`; the type
`ytv1.UpdateState` is declared outside the given sources, every other value is `Other`. -/
inductive UpdateState where
  | UpdateStateWaitingForPodsRemoval
  | Other
  deriving DecidableEq, Repr

export UpdateState (UpdateStateWaitingForPodsRemoval)

/-- A collaborator call, as it appears in the source. -/
inductive Call where
  /-- Call `conditionsManager.IsStatusConditionTrue(key)` -/
  | IsStatusConditionTrue (key : String)
  /-- Call `conditionsManager.IsStatusConditionFalse(key)` -/
  | IsStatusConditionFalse (key : String)
  /-- Call `SetStatusCondition(ctx, condition)` -/
  | SetStatusCondition (c : Condition)
  /-- Call `resources.Exists(j.initJob)` -/
  | Exists
  /-- Call `j.initJob.Completed()` -/
  | Completed
  /-- Call `j.initJob.Build()` inside `InitJob.Build` (only when nothing is memoized) -/
  | JobBuild
  /-- Call `j.configHelper.Build()` followed by the write of the script into `cm.Data` -/
  | SetInitScript (script : String)
  /-- Call `resources.Sync(ctx, {j.configHelper, j.initJob})`, with the script the config map holds -/
  | ResourcesSync (script : Option String)
  /-- Call `apiProxy.DeleteObject(ctx, j.initJob.OldObject(), foreground)` -/
  | DeleteObject (foreground : Bool)
  | GetClusterState
  | GetUpdateState
  | GetLocalUpdatingComponents
  | NeedUpdate
  | NeedSync
  | IsInSync
  | ArePodsReady
  /-- Call `server.Sync(ctx)` -/
  | ServerSync
  /-- Call `removePods(ctx, dry)` -/
  | RemovePods (dry : Bool)
  /-- Call `ytsaurusClient.Status(ctx)` -/
  | ClientStatus
  /-- Call `ytsaurusClient.GetYtClient()` -/
  | GetYtClient
  /-- Call `ytClient.NodeExists(ctx, path, nil)` -/
  | NodeExists (path : String)
  /-- Call `ytClient.CreateObject(ctx, yt.NodeTabletCellBundle, {name, options})` -/
  | CreateObject (name : String) (changelogAccount snapshotAccount : String)
  /-- Call `CreateTabletCells(ctx, ytClient, bundle, n)` -/
  | CreateTabletCells (bundle : String) (n : Nat)
  deriving DecidableEq, Repr

/-- The calls that can change something outside the caller: Resource Store writes, ledger writes,
in-memory writes to the component object, pod removal in real mode and YT cluster writes. -/
def Call.mutating : Call → Bool
  | .SetStatusCondition _ => true
  | .JobBuild => true
  | .SetInitScript _ => true
  | .ResourcesSync _ => true
  | .DeleteObject _ => true
  | .ServerSync => true
  | .RemovePods dry => !dry
  | .CreateObject _ _ _ => true
  | .CreateTabletCells _ _ => true
  | _ => false

/-- Everything one component observes and can change, plus the log of the calls it made. -/
structure World where
  /-- Condition Ledger: the conditions of the cluster's persistent record. -/
  conditions : List Condition
  /-- Resource Store: the Init Job's Task is present. -/
  jobExists : Bool
  /-- Resource Store: the Init Job's Task reports completion. -/
  jobCompleted : Bool
  /-- Resource Store: the Init Job's config map, `none` when absent, else its script entry. -/
  storedConfigMap : Option (Option String)
  /-- In-memory: `j.builtJob != nil`. -/
  builtJob : Bool
  /-- In-memory: `cm.Data[consts.InitClusterScriptFileName]` of the built config map. -/
  initScript : Option String
  /-- Cluster-level state. -/
  clusterState : ClusterState
  updateState : UpdateState
  /-- Call `GetLocalUpdatingComponents()`: a Go slice, `none` when it is `nil`. -/
  localUpdatingComponents : Option (List String)
  /-- Server wrapper observations. -/
  needUpdate : Bool
  needSync : Bool
  isInSync : Bool
  podsReady : Bool
  /-- What the Cluster Client Component's `Status(ctx)` reports. -/
  clientStatus : SyncStatus
  /-- YT cluster: the node `//sys/tablet_cell_bundles/sys` exists. -/
  sysBundleExists : Bool
  /-- YT cluster: number of tablet cells per bundle. -/
  tabletCells : List (String × Nat)
  /-- The collaborator calls made so far, oldest first. -/
  trace : List Call
  deriving DecidableEq, Repr

/-- The observable state: the world without the call log. -/
def World.state (w : World) : World := { w with trace := [] }

/-- The mutating calls made so far. -/
def World.mutations (w : World) : List Call := w.trace.filter Call.mutating

/-- Append a call to the log. -/
def World.log (w : World) (c : Call) : World := { w with trace := w.trace ++ [c] }

/-- A medium of `cfgen.GetExtraMedia()`. -/
structure Medium where
  Name : String
  deriving DecidableEq, Repr

/-- The outcomes of the fallible collaborator calls of one pass (`none` is a nil error). -/
structure Env where
  /-- Call `resources.Sync(ctx, ...)` -/
  resourcesSyncErr : Option GoError
  /-- Whether a failing `resources.Sync` had already written the config map, the first object of
  the batch, when it failed. -/
  resourcesSyncWroteConfig : Bool
  /-- Call `apiProxy.DeleteObject(...)` -/
  deleteObjectErr : Option GoError
  /-- Call `SetStatusCondition(ctx, ...)` -/
  setStatusConditionErr : Option GoError
  /-- Call `server.Sync(ctx)` -/
  serverSyncErr : Option GoError
  /-- Call `removePods(ctx, dry)` -/
  removePodsErr : Bool → Option GoError
  /-- the error of `ytClient.NodeExists` -/
  nodeExistsErr : Option GoError
  /-- the error of `ytClient.CreateObject` -/
  createObjectErr : Option GoError
  /-- Call `CreateTabletCells(ctx, ytClient, bundle, n)` -/
  createTabletCellsErr : String → Option GoError
  /-- Call `cfgen.GetClusterConnection()` -/
  clusterConnection : Except GoError String
  /-- Call `cfgen.GetExtraMedia()` -/
  extraMedia : List Medium
  /-- Call `yson.MarshalFormat(medium, yson.FormatText)` -/
  marshalFormat : Medium → Except GoError String

/-- What a Go call ends in: it returns a value or it panics. -/
inductive Outcome (α : Type) where
  | returned (a : α)
  | panicked (e : GoError)
  deriving DecidableEq, Repr

/-! ## Condition Ledger -/

/-- Modelled from the spec: the ledger is a durable mapping from a key to a condition; lookup of
the entry stored under a key (`meta.FindStatusCondition`, outside the given sources). -/
def FindStatusCondition (conditions : List Condition) (key : String) : Option Condition :=
  conditions.find? (fun c => c.type == key)

/-- Modelled from the spec: the tri-state value under a key, `Unknown` when nothing was set. -/
def conditionValue (conditions : List Condition) (key : String) : ConditionStatus :=
  match FindStatusCondition conditions key with
  | some c => c.status
  | none => ConditionUnknown

/-- Modelled from the spec: a condition is created implicitly on first set and overwritten after
(`meta.SetStatusCondition`, outside the given sources). -/
def setCondition : List Condition → Condition → List Condition
  | [], n => [n]
  | c :: cs, n => if c.type == n.type then n :: cs else c :: setCondition cs n

/-- Modelled from the spec: `IsStatusConditionTrue(key) -> bool` of the Condition Ledger. -/
def IsStatusConditionTrue (key : String) (w : World) : Bool × World :=
  (decide (conditionValue w.conditions key = ConditionTrue), w.log (.IsStatusConditionTrue key))

/-- Modelled from the spec: `IsStatusConditionFalse(key) -> bool` of the Condition Ledger. -/
def IsStatusConditionFalse (key : String) (w : World) : Bool × World :=
  (decide (conditionValue w.conditions key = ConditionFalse), w.log (.IsStatusConditionFalse key))

/-- Modelled from the spec: `SetStatusCondition(ctx, condition) -> error` of the Condition
Ledger; the write lands exactly when the call reports no error. -/
def SetStatusCondition (env : Env) (c : Condition) (w : World) : Option GoError × World :=
  let w := w.log (.SetStatusCondition c)
  match env.setStatusConditionErr with
  | none => (none, { w with conditions := setCondition w.conditions c })
  | some e => (some e, w)

/-! ## Resource Store -/

/-- Modelled from the spec: `Exists(obj) -> bool` of the Resource Store, for the Init Job's
Task. -/
def resources.Exists (w : World) : Bool × World :=
  (w.jobExists, w.log .Exists)

/-- Modelled from the spec: `Completed(Task) -> bool` of the Resource Store. -/
def resources.Completed (w : World) : Bool × World :=
  (w.jobCompleted, w.log .Completed)

/-- Modelled from the spec: `Sync(ctx, objs) -> error` of the Resource Store (create-or-update,
batched) for the config map and the Task.  On success both are present, the config map holds
the script of the built one and a Task that was absent starts out not completed; on failure
the Task is not touched (`TaskExists` will still be false), and whether the config map was
written before the failure is left to `Env`. -/
def resources.Sync (env : Env) (w : World) : Option GoError × World :=
  let w := w.log (.ResourcesSync w.initScript)
  match env.resourcesSyncErr with
  | none =>
    (none, { w with jobExists := true,
                    jobCompleted := w.jobExists && w.jobCompleted,
                    storedConfigMap := some w.initScript })
  | some e =>
    (some e, { w with storedConfigMap :=
      if env.resourcesSyncWroteConfig then some w.initScript else w.storedConfigMap })

/-- Modelled from the spec: `DeleteObject(ctx, ref, options) -> error` of the Resource Store
with foreground cascade-delete; on success the Task is gone. -/
def DeleteObject (env : Env) (foreground : Bool) (w : World) : Option GoError × World :=
  let w := w.log (.DeleteObject foreground)
  match env.deleteObjectErr with
  | none => (none, { w with jobExists := false })
  | some e => (some e, w)

/-- The external event "the underlying Task reports completed". -/
def taskCompletes (w : World) : World := { w with jobCompleted := true }

/-! ## Constants and helpers declared outside the given sources -/

/-- The constants of package `consts` and the helpers the three files use but do not declare,
taken as parameters. -/
structure Deps where
  ConfigMountPoint : String
  ClientConfigFileName : String
  InitClusterScriptFileName : String
  DefaultAdminLogin : String
  DefaultAdminPassword : String
  AdminLoginSecret : String
  AdminPasswordSecret : String
  AdminTokenSecret : String
  /-- Go's `path.Join` -/
  pathJoin : String → String → String
  /-- Helper `createUserCommand(login, password, token, isSuperuser)` -/
  createUserCommand : String → String → String → Bool → List String

/-! ## init_job.go -/

/-- The constant `initJobPrologue`. -/
def initJobPrologue : String := "\nset -e\nset -x\n"

/-- Function `initJobWithNativeDriverPrologue`. -/
def initJobWithNativeDriverPrologue (d : Deps) : String :=
  let commands := [
    initJobPrologue,
    "export YT_DRIVER_CONFIG_PATH=" ++ d.pathJoin d.ConfigMountPoint d.ClientConfigFileName]
  String.intercalate "\n" commands

/-- The fields of `InitJob` the decision logic reads. -/
structure InitJob where
  /-- Field `labeller.ComponentName` -/
  ComponentName : String
  initCompletedCondition : String
  deriving DecidableEq, Repr

/-- Constructor `NewInitJob`, for the fields above. -/
def NewInitJob (ComponentName name : String) : InitJob :=
  { ComponentName := ComponentName
    initCompletedCondition := name ++ ComponentName ++ "InitJobCompleted" }

/-- Method `InitJob.SetInitScript`. -/
def InitJob.SetInitScript (_j : InitJob) (script : String) (w : World) : World :=
  { w.log (.SetInitScript script) with initScript := some script }

/-- Method `InitJob.Build`: builds the job once and memoizes it in `builtJob`. -/
def InitJob.Build (_j : InitJob) (w : World) : World :=
  if w.builtJob then w
  else { w.log .JobBuild with builtJob := true }

/-- Method `InitJob.Sync` (logging through `logger` is not modelled). -/
def InitJob.Sync (j : InitJob) (env : Env) (dry : Bool) (w : World) :
    (SyncStatus × Option GoError) × World :=
  let err : Option GoError := none
  let c := IsStatusConditionTrue j.initCompletedCondition w
  if c.1 then ((SyncStatusReady, err), c.2)
  else
    -- Deal with init job.
    let x := resources.Exists c.2
    if !x.1 then
      if dry then ((SyncStatusPending, none), x.2)
      else
        let w1 := j.Build x.2
        let r := resources.Sync env w1
        ((SyncStatusPending, r.1), r.2)
    else
      let k := resources.Completed x.2
      if !k.1 then ((SyncStatusBlocked, err), k.2)
      else if !dry then
        let r := SetStatusCondition env
          { type := j.initCompletedCondition
            status := ConditionTrue
            reason := "InitJobCompleted"
            message := "Init job successfully completed" } k.2
        ((SyncStatusPending, r.1), r.2)
      else ((SyncStatusPending, err), k.2)

/-- Method `InitJob.removeIfExists`. -/
def InitJob.removeIfExists (_j : InitJob) (env : Env) (w : World) : Option GoError × World :=
  let x := resources.Exists w
  if !x.1 then (none, x.2)
  else DeleteObject env true x.2

/-- Method `InitJob.prepareRestart`. -/
def InitJob.prepareRestart (j : InitJob) (env : Env) (dry : Bool) (w : World) :
    Option GoError × World :=
  if dry then (none, w)
  else
    let r := j.removeIfExists env w
    match r.1 with
    | some err => (some err, r.2)
    | none =>
      SetStatusCondition env
        { type := j.initCompletedCondition
          status := ConditionFalse
          reason := "InitJobNeedRestart"
          message := "Init job needs restart" } r.2

/-- Method `InitJob.isRestartPrepared`. -/
def InitJob.isRestartPrepared (j : InitJob) (w : World) : Bool × World :=
  let x := resources.Exists w
  if !x.1 then IsStatusConditionFalse j.initCompletedCondition x.2
  else (false, x.2)

/-- Method `InitJob.isRestartCompleted`. -/
def InitJob.isRestartCompleted (j : InitJob) (w : World) : Bool × World :=
  IsStatusConditionTrue j.initCompletedCondition w

/-! ## Cluster-level state and Server Wrapper -/

/-- Modelled from the spec: read of the cluster-level `ClusterState`. -/
def GetClusterState (w : World) : ClusterState × World :=
  (w.clusterState, w.log .GetClusterState)

/-- Modelled from the spec: read of the cluster-level `UpdateState`. -/
def GetUpdateState (w : World) : UpdateState × World :=
  (w.updateState, w.log .GetUpdateState)

/-- Modelled from the spec: read of the set of locally updating components. -/
def GetLocalUpdatingComponents (w : World) : Option (List String) × World :=
  (w.localUpdatingComponents, w.log .GetLocalUpdatingComponents)

/-- Modelled from the spec: `NeedUpdate() -> bool` of the Server Wrapper. -/
def server.NeedUpdate (w : World) : Bool × World :=
  (w.needUpdate, w.log .NeedUpdate)

/-- Modelled from the spec: `NeedSync() -> bool` of the Server Wrapper. -/
def server.NeedSync (w : World) : Bool × World :=
  (w.needSync, w.log .NeedSync)

/-- Modelled from the spec: `IsInSync() -> bool` of the Server Wrapper. -/
def server.IsInSync (w : World) : Bool × World :=
  (w.isInSync, w.log .IsInSync)

/-- Modelled from the spec: `ArePodsReady(ctx) -> bool` of the Server Wrapper. -/
def server.ArePodsReady (w : World) : Bool × World :=
  (w.podsReady, w.log .ArePodsReady)

/-- Modelled from the spec: `Sync(ctx) -> error` of the Server Wrapper; a successful call leaves
the server in sync. -/
def server.Sync (env : Env) (w : World) : Option GoError × World :=
  let w := w.log .ServerSync
  match env.serverSyncErr with
  | none => (none, { w with needSync := false, isInSync := true })
  | some e => (some e, w)

/-- Modelled from the spec: `removePods(ctx, dry) -> error`; with `dry=false` a successful call
deletes the owned pods, with `dry=true` nothing is changed.  Whether the probe can fail is left
to `Env`. -/
def removePods (env : Env) (dry : Bool) (w : World) : Option GoError × World :=
  let w := w.log (.RemovePods dry)
  match env.removePodsErr dry with
  | none => (none, if dry then w else { w with podsReady := false })
  | some e => (some e, w)

/-! ## master.go -/

/-- The fields of `corev1.Secret` that `master` reads. -/
structure Secret where
  Name : String
  Data : List (String × String)
  deriving DecidableEq, Repr

/-- The fields of `master` the decision logic reads. -/
structure master where
  initJob : InitJob
  adminCredentials : Secret
  deriving DecidableEq, Repr

/-- Constructor `NewMaster`, for the fields above; the secret is filled in by `Fetch`. -/
def NewMaster : master :=
  { initJob := NewInitJob "Master" "default"
    adminCredentials := { Name := "", Data := [] } }

/-- Method `master.initAdminUser`. -/
def master.initAdminUser (d : Deps) (m : master) : String :=
  let adminLogin := d.DefaultAdminLogin
  let adminPassword := d.DefaultAdminPassword
  let adminToken := d.DefaultAdminPassword
  let creds : String × String × String :=
    if m.adminCredentials.Name != "" then
      let adminLogin :=
        match m.adminCredentials.Data.lookup d.AdminLoginSecret with
        | some value => value
        | none => adminLogin
      let adminPassword :=
        match m.adminCredentials.Data.lookup d.AdminPasswordSecret with
        | some value => value
        | none => adminPassword
      let adminToken :=
        match m.adminCredentials.Data.lookup d.AdminTokenSecret with
        | some value => value
        | none => adminToken
      (adminLogin, adminPassword, adminToken)
    else (adminLogin, adminPassword, adminToken)
  let commands := d.createUserCommand creds.1 creds.2.1 creds.2.2 true
  String.intercalate "\n" commands

/-- The loop of `master.initMedia`: one command per medium, `error` when marshalling panics. -/
def master.initMediaCommands (env : Env) : List Medium → Except GoError (List String)
  | [] => .ok []
  | medium :: rest =>
    match env.marshalFormat medium with
    | .error err => .error err
    | .ok attr =>
      match master.initMediaCommands env rest with
      | .error err => .error err
      | .ok commands =>
        .ok (("/usr/bin/yt get //sys/media/" ++ medium.Name ++
          "/@name || /usr/bin/yt create medium --attr '" ++ attr ++ "'") :: commands)

/-- Method `master.initMedia`; `error` is a panic. -/
def master.initMedia (env : Env) : Except GoError String :=
  match master.initMediaCommands env env.extraMedia with
  | .error err => .error err
  | .ok commands => .ok (String.intercalate "\n" commands)

/-- Method `master.createInitScript`; `error` is a panic. -/
def master.createInitScript (d : Deps) (m : master) (env : Env) : Except GoError String :=
  match env.clusterConnection with
  | .error err => .error err
  | .ok clusterConnection =>
    match master.initMedia env with
    | .error err => .error err
    | .ok media =>
      let script := [
        initJobWithNativeDriverPrologue d,
        "/usr/bin/yt remove //sys/@provision_lock -f",
        "/usr/bin/yt create scheduler_pool_tree --attributes '\x7bname=default; config=\x7bnodes_filter=\"\"\x7d\x7d' --ignore-existing",
        "/usr/bin/yt set //sys/pool_trees/@default_tree default",
        "/usr/bin/yt create scheduler_pool --attributes '\x7bname=research; pool_tree=default\x7d' --ignore-existing",
        "/usr/bin/yt create map_node //home --ignore-existing",
        "/usr/bin/yt set //sys/@cluster_connection '" ++ clusterConnection ++ "'",
        "/usr/bin/yt set //sys/controller_agents/config/operation_options/spec_template '\x7benable_partitioned_data_balancing=%false\x7d' -r -f",
        m.initAdminUser d,
        media]
      .ok (String.intercalate "\n" script)

/-- The guard of the pod-removal step of `master.doSync`: cluster `Updating`, update state
`WaitingForPodsRemoval` and `updatingComponents == nil`, read in that order. -/
def master.podsRemovalGuard (w : World) : Bool × World :=
  let s := GetClusterState w
  if s.1 = ClusterStateUpdating then
    let u := GetUpdateState s.2
    if u.1 = UpdateStateWaitingForPodsRemoval then
      let updatingComponents := GetLocalUpdatingComponents u.2
      (updatingComponents.1.isNone, updatingComponents.2)
    else (false, u.2)
  else (false, s.2)

/-- The guard of the first step of `master.doSync`,
`GetClusterState() == ClusterStateRunning && server.NeedUpdate()`; the server is asked only
when the cluster is running. -/
def master.needUpdateGuard (w : World) : Bool × World :=
  let s := GetClusterState w
  if s.1 = ClusterStateRunning then server.NeedUpdate s.2 else (false, s.2)

/-- Method `master.doSync`. -/
def master.doSync (d : Deps) (m : master) (env : Env) (dry : Bool) (w : World) :
    Outcome (SyncStatus × Option GoError) × World :=
  let err : Option GoError := none
  let n := master.needUpdateGuard w
  if n.1 then (.returned (SyncStatusNeedFullUpdate, err), n.2)
  else
    let g := master.podsRemovalGuard n.2
    if g.1 then
      let r := removePods env dry g.2
      (.returned (SyncStatusUpdating, r.1), r.2)
    else
      let ns := server.NeedSync g.2
      if ns.1 then
        if !dry then
          let r := server.Sync env ns.2
          (.returned (SyncStatusPending, r.1), r.2)
        else (.returned (SyncStatusPending, err), ns.2)
      else
        let p := server.ArePodsReady ns.2
        if !p.1 then (.returned (SyncStatusBlocked, err), p.2)
        else if !dry then
          match m.createInitScript d env with
          | .error e => (.panicked e, p.2)
          | .ok script =>
            let r := m.initJob.Sync env dry (m.initJob.SetInitScript script p.2)
            (.returned r.1, r.2)
        else
          let r := m.initJob.Sync env dry p.2
          (.returned r.1, r.2)

/-- Method `master.Status`: a non-nil error of the probe is a panic. -/
def master.Status (d : Deps) (m : master) (env : Env) (w : World) : Outcome SyncStatus × World :=
  match m.doSync d env true w with
  | (.returned (status, none), w1) => (.returned status, w1)
  | (.returned (_, some err), w1) => (.panicked err, w1)
  | (.panicked e, w1) => (.panicked e, w1)

/-- Method `master.Sync`. -/
def master.Sync (d : Deps) (m : master) (env : Env) (w : World) :
    Outcome (Option GoError) × World :=
  match m.doSync d env false w with
  | (.returned (_, err), w1) => (.returned err, w1)
  | (.panicked e, w1) => (.panicked e, w1)

/-! ## Cluster Client Component and YT client -/

/-- Modelled from the spec: `Status(ctx) -> SyncStatus` of the Cluster Client Component. -/
def ytsaurusClient.Status (w : World) : SyncStatus × World :=
  (w.clientStatus, w.log .ClientStatus)

/-- Modelled from the spec: the handle to the administrative client of the Cluster Client
Component. -/
def ytsaurusClient.GetYtClient (w : World) : World :=
  w.log .GetYtClient

/-- Modelled from the spec: the existence probe of the administrative client, which can fail. -/
def ytClient.NodeExists (env : Env) (path : String) (w : World) :
    (Bool × Option GoError) × World :=
  let w := w.log (.NodeExists path)
  match env.nodeExistsErr with
  | none => ((w.sysBundleExists, none), w)
  | some e => ((false, some e), w)

/-- Modelled from the spec: creation of a storage bundle through the administrative client. -/
def ytClient.CreateObject (env : Env) (name changelogAccount snapshotAccount : String)
    (w : World) : Option GoError × World :=
  let w := w.log (.CreateObject name changelogAccount snapshotAccount)
  match env.createObjectErr with
  | none => (none, { w with sysBundleExists := true })
  | some e => (some e, w)

/-- Modelled from the spec: ensure-at-least-N on the cell count of one bundle. -/
def ensureCells : List (String × Nat) → String → Nat → List (String × Nat)
  | [], bundle, n => [(bundle, n)]
  | (b, k) :: rest, bundle, n =>
    if b == bundle then (b, max k n) :: rest else (b, k) :: ensureCells rest bundle n

/-- Modelled from the spec: `CreateTabletCells(ctx, ytClient, bundle, n)`, the
storage-cell-count-ensuring step (ensure-at-least-N, not create-exactly-N). -/
def CreateTabletCells (env : Env) (bundle : String) (n : Nat) (w : World) :
    Option GoError × World :=
  let w := w.log (.CreateTabletCells bundle n)
  match env.createTabletCellsErr bundle with
  | none => (none, { w with tabletCells := ensureCells w.tabletCells bundle n })
  | some e => (some e, w)

/-! ## tablet_node.go -/

/-- The fields of `tabletNode` the decision logic reads. -/
structure tabletNode where
  initBundlesCondition : String
  doInitialization : Bool
  deriving DecidableEq, Repr

/-- Constructor `NewTabletNode`, for the fields above. -/
def NewTabletNode (doInitiailization : Bool) : tabletNode :=
  { initBundlesCondition := "bundlesTabletNodeInitCompleted"
    doInitialization := doInitiailization }

/-- The guard of the pod-removal step of `tabletNode.doSync`: cluster `Updating` and update
state `WaitingForPodsRemoval`, read in that order. -/
def tabletNode.podsRemovalGuard (w : World) : Bool × World :=
  let s := GetClusterState w
  if s.1 = ClusterStateUpdating then
    let u := GetUpdateState s.2
    (decide (u.1 = UpdateStateWaitingForPodsRemoval), u.2)
  else (false, s.2)

/-- The guard `!r.doInitialization || IsStatusConditionTrue(r.initBundlesCondition)`; the ledger
is read only when initialization is enabled. -/
def tabletNode.initDoneGuard (r : tabletNode) (w : World) : Bool × World :=
  if !r.doInitialization then (true, w)
  else IsStatusConditionTrue r.initBundlesCondition w

/-- The loop `for _, bundle := range ...` of `tabletNode.doSync`: stops at the first error. -/
def tabletNode.createTabletCellsLoop (env : Env) : List String → World → Option GoError × World
  | [], w => (none, w)
  | bundle :: rest, w =>
    let c := CreateTabletCells env bundle 1 w
    match c.1 with
    | some err => (some err, c.2)
    | none => tabletNode.createTabletCellsLoop env rest c.2

/-- The block `if r.doInitialization { ... }` of the real-mode branch of `tabletNode.doSync`
together with the `return SyncStatusPending, err` that follows it: probe the `sys` bundle,
create it when absent, ensure one tablet cell in `default` and in `sys`, record completion. -/
def tabletNode.initBundles (r : tabletNode) (env : Env) (w1 : World) :
    (SyncStatus × Option GoError) × World :=
  let err : Option GoError := none
  if r.doInitialization then
    let e := ytClient.NodeExists env "//sys/tablet_cell_bundles/sys" w1
    match e.1.2 with
    | some err => ((SyncStatusPending, some err), e.2)
    | none =>
      let o :=
        if !e.1.1 then ytClient.CreateObject env "sys" "sys" "sys" e.2
        else (none, e.2)
      match o.1 with
      | some err => ((SyncStatusPending, some err), o.2)
      | none =>
        let l := tabletNode.createTabletCellsLoop env ["default", "sys"] o.2
        match l.1 with
        | some err => ((SyncStatusPending, some err), l.2)
        | none =>
          let sc := SetStatusCondition env
            { type := r.initBundlesCondition
              status := ConditionTrue
              reason := "InitBundlesCompleted"
              message := "Init bundles successfully completed" } l.2
          ((SyncStatusPending, sc.1), sc.2)
  else ((SyncStatusPending, err), w1)

/-- Method `tabletNode.doSync` (logging through `logger` is not modelled). -/
def tabletNode.doSync (r : tabletNode) (env : Env) (dry : Bool) (w : World) :
    (SyncStatus × Option GoError) × World :=
  let err : Option GoError := none
  let g := tabletNode.podsRemovalGuard w
  if g.1 then
    let p := removePods env dry g.2
    ((SyncStatusUpdating, p.1), p.2)
  else
    let i := server.IsInSync g.2
    if !i.1 then
      if !dry then
        let s := server.Sync env i.2
        ((SyncStatusPending, s.1), s.2)
      else ((SyncStatusPending, err), i.2)
    else
      let a := server.ArePodsReady i.2
      if !a.1 then ((SyncStatusBlocked, err), a.2)
      else
        let t := r.initDoneGuard a.2
        if t.1 then ((SyncStatusReady, err), t.2)
        else
          let c := ytsaurusClient.Status t.2
          if c.1 ≠ SyncStatusReady then ((SyncStatusBlocked, err), c.2)
          else
            let w1 := ytsaurusClient.GetYtClient c.2
            if !dry then r.initBundles env w1
            else ((SyncStatusPending, err), w1)

/-- Method `tabletNode.Status`: a non-nil error of the probe is a panic. -/
def tabletNode.Status (r : tabletNode) (env : Env) (w : World) : Outcome SyncStatus × World :=
  match r.doSync env true w with
  | ((status, none), w1) => (.returned status, w1)
  | ((_, some err), w1) => (.panicked err, w1)

/-- Method `tabletNode.Sync`. -/
def tabletNode.Sync (r : tabletNode) (env : Env) (w : World) : Option GoError × World :=
  let x := r.doSync env false w
  (x.1.2, x.2)

/-! ## Shared helpers for the statements -/

/-- The part of a result of `master.doSync` that carries the status, if it returned. -/
def Outcome.status? : Outcome (SyncStatus × Option GoError) → Option SyncStatus
  | .returned (s, _) => some s
  | .panicked _ => none

/-- An environment in which every collaborator call succeeds. -/
def Env.allOk : Env :=
  { resourcesSyncErr := none
    resourcesSyncWroteConfig := false
    deleteObjectErr := none
    setStatusConditionErr := none
    serverSyncErr := none
    removePodsErr := fun _ => none
    nodeExistsErr := none
    createObjectErr := none
    createTabletCellsErr := fun _ => none
    clusterConnection := .ok "cc"
    extraMedia := []
    marshalFormat := fun m => .ok m.Name }

/-- A world with nothing created: no conditions, no Task, cluster running, server in sync with
ready pods, Cluster Client Component ready, no bundles. -/
def World.fresh : World :=
  { conditions := []
    jobExists := false
    jobCompleted := false
    storedConfigMap := none
    builtJob := false
    initScript := none
    clusterState := ClusterStateRunning
    updateState := UpdateState.Other
    localUpdatingComponents := none
    needUpdate := false
    needSync := false
    isInSync := true
    podsReady := true
    clientStatus := SyncStatusReady
    sysBundleExists := false
    tabletCells := []
    trace := [] }

/-- Concrete values for the constants and helpers declared outside the given sources. -/
def Deps.sample : Deps :=
  { ConfigMountPoint := "/config"
    ClientConfigFileName := "client.yson"
    InitClusterScriptFileName := "init-cluster.sh"
    DefaultAdminLogin := "admin"
    DefaultAdminPassword := "password"
    AdminLoginSecret := "login"
    AdminPasswordSecret := "password"
    AdminTokenSecret := "token"
    pathJoin := fun a b => a ++ "/" ++ b
    createUserCommand := fun login password token _ => [login, password, token] }

/-- The calls made between the world `w0` and a later world `w`. -/
def World.since (w0 w : World) : List Call := w.trace.drop w0.trace.length

/-- Consecutive calls of `InitJob.Sync`, one per entry of `passes`, each with its own
collaborator outcomes and `dry` flag; returns what every call returned and the final world. -/
def InitJob.syncs (j : InitJob) : List (Env × Bool) → World →
    List (SyncStatus × Option GoError) × World
  | [], w => ([], w)
  | (env, dry) :: rest, w =>
    let r := j.Sync env dry w
    let rs := InitJob.syncs j rest r.2
    (r.1 :: rs.1, rs.2)

/-- A world in which the master's Init Job has completed and the completion is recorded. -/
def World.initDone : World :=
  { World.fresh with
    conditions := [
      { type := "defaultMasterInitJobCompleted"
        status := ConditionTrue
        reason := "InitJobCompleted"
        message := "Init job successfully completed" }]
    jobExists := true
    jobCompleted := true }

/-- Outcomes in which every call succeeds except `cfgen.GetClusterConnection()`. -/
def Env.cfgenFails : Env :=
  { Env.allOk with clusterConnection := .error "cluster connection unavailable" }

/-- Append several calls to the log. -/
def World.logs (w : World) (l : List Call) : World := { w with trace := w.trace ++ l }

/-- The reads made by the two guards of `master.doSync`, in order: the cluster state, the
server's `NeedUpdate` when the cluster is running, the cluster state again, the update state
when the cluster is updating, and the locally updating components when it waits for pod
removal. -/
def master.guardCalls (w : World) : List Call :=
  .GetClusterState ::
    ((if w.clusterState = ClusterStateRunning then [.NeedUpdate] else []) ++
      (.GetClusterState ::
        (if w.clusterState = ClusterStateUpdating then
          .GetUpdateState ::
            (if w.updateState = UpdateStateWaitingForPodsRemoval then
              [.GetLocalUpdatingComponents] else [])
         else [])))

/-- The reads made by the pod-removal guard of `tabletNode.doSync`, in order: the cluster
state, and the update state when the cluster is updating. -/
def tabletNode.guardCalls (w : World) : List Call :=
  .GetClusterState :: (if w.clusterState = ClusterStateUpdating then [.GetUpdateState] else [])

/-- The reads `tabletNode.doSync` makes up to and including the initialization guard. -/
def tabletNode.readsToInitGuard (r : tabletNode) (w : World) : List Call :=
  tabletNode.guardCalls w ++ [.IsInSync, .ArePodsReady] ++
    (if r.doInitialization then [.IsStatusConditionTrue r.initBundlesCondition] else [])

/-- The calls a status probe of a component must not make: the server's `Sync`, `removePods`
in real mode, `SetInitScript`, the build and the sync of the Init Job's config and Task, a
delete, `SetStatusCondition`, and the YT client's `NodeExists`, `CreateObject` and
`CreateTabletCells`. -/
def Call.barredFromProbe : Call → Bool
  | .ServerSync => true
  | .RemovePods dry => !dry
  | .SetInitScript _ => true
  | .JobBuild => true
  | .ResourcesSync _ => true
  | .DeleteObject _ => true
  | .SetStatusCondition _ => true
  | .NodeExists _ => true
  | .CreateObject _ _ _ => true
  | .CreateTabletCells _ _ => true
  | _ => false

/-- Consecutive runs of a world transformer, one per entry of `envs`. -/
def runAll (f : Env → World → World) : List Env → World → World
  | [], w => w
  | env :: rest, w => runAll f rest (f env w)

/-- A world in which the cluster is updating and waits for pod removal, with no locally
updating components recorded. -/
def World.waitingForPodsRemoval : World :=
  { World.fresh with
    clusterState := ClusterStateUpdating
    updateState := UpdateStateWaitingForPodsRemoval
    localUpdatingComponents := none }

/-- Restart scenario, step 1: the world after `prepareRestart(dry=false)`. -/
def InitJob.afterPrepareRestart (j : InitJob) (e0 : Env) (w : World) : World :=
  (j.prepareRestart e0 false w).2

/-- Restart scenario, step 2: the world after the next `Sync(dry=false)`. -/
def InitJob.afterRecreate (j : InitJob) (e0 e1 : Env) (w : World) : World :=
  (j.Sync e1 false (j.afterPrepareRestart e0 w)).2

/-- Restart scenario, step 3: the recreated Task has reported completion. -/
def InitJob.afterCompletion (j : InitJob) (e0 e1 : Env) (w : World) : World :=
  taskCompletes (j.afterRecreate e0 e1 w)

/-- Restart scenario, step 4: the world after one more `Sync(dry=false)`. -/
def InitJob.afterRecord (j : InitJob) (e0 e1 e2 : Env) (w : World) : World :=
  (j.Sync e2 false (j.afterCompletion e0 e1 w)).2

/-- The calls of the bundle-initialization step of the storage node: the YT client's
`NodeExists`, `CreateObject` and `CreateTabletCells`, and the ledger write. -/
def Call.bundleInitStep : Call → Bool
  | .NodeExists _ => true
  | .CreateObject _ _ _ => true
  | .CreateTabletCells _ _ => true
  | .SetStatusCondition _ => true
  | _ => false

/-- Outcomes in which every call succeeds except the Resource Store create. -/
def Env.createFails : Env :=
  { Env.allOk with resourcesSyncErr := some "create failed" }

/-- A world in which the storage node is in sync with ready pods but the Cluster Client
Component is still pending. -/
def World.clientPending : World :=
  { World.fresh with clientStatus := SyncStatusPending }

/-- The calls `InitJob.Sync` can make. -/
def Call.ofInitJobSync : Call → Bool
  | .IsStatusConditionTrue _ => true
  | .Exists => true
  | .Completed => true
  | .JobBuild => true
  | .ResourcesSync _ => true
  | .SetStatusCondition _ => true
  | _ => false

/-- A world in which the cluster is updating and waits for pod removal, and the set of locally
updating components is present and empty. -/
def World.waitingWithEmptySet : World :=
  { World.fresh with
    clusterState := ClusterStateUpdating
    updateState := UpdateStateWaitingForPodsRemoval
    localUpdatingComponents := some [] }

/-- Outcomes in which every call succeeds except the marshalling of the one extra medium. -/
def Env.mediaFails : Env :=
  { Env.allOk with
    extraMedia := [{ Name := "ssd" }]
    marshalFormat := fun _ => .error "marshal failed" }

/-- A running cluster whose master server needs both a full update and a routine sync. -/
def World.needsFullUpdate : World :=
  { World.fresh with needUpdate := true, needSync := true }

/-- A world in which the cluster waits for pod removal while one component is still recorded
as locally updating and the storage node is out of sync with its pods not ready. -/
def World.waitingWithOthers : World :=
  { World.fresh with
    clusterState := ClusterStateUpdating
    updateState := UpdateStateWaitingForPodsRemoval
    localUpdatingComponents := some ["Master"]
    isInSync := false
    podsReady := false }

/-- The condition `tabletNode.doSync` writes when bundle initialization has completed. -/
def tabletNode.initBundlesDone (r : tabletNode) : Condition :=
  { type := r.initBundlesCondition
    status := ConditionTrue
    reason := "InitBundlesCompleted"
    message := "Init bundles successfully completed" }

/-- Step 6 in the words of the claim: the probe, the optional bundle creation and both
cell-count steps all succeeded. -/
def bundleInitSucceeded (env : Env) (sysBundleExists : Bool) : Bool :=
  env.nodeExistsErr.isNone && (sysBundleExists || env.createObjectErr.isNone) &&
    (env.createTabletCellsErr "default").isNone && (env.createTabletCellsErr "sys").isNone

/-- Step 6 in the words of the claim: the error of the first failing step, and the error of
`SetStatusCondition` when no step fails. -/
def bundleInitError (env : Env) (sysBundleExists : Bool) : Option GoError :=
  match env.nodeExistsErr with
  | some e => some e
  | none =>
    match (if sysBundleExists then none else env.createObjectErr) with
    | some e => some e
    | none =>
      match env.createTabletCellsErr "default" with
      | some e => some e
      | none =>
        match env.createTabletCellsErr "sys" with
        | some e => some e
        | none => env.setStatusConditionErr

/-- Step 6 in the words of the claim: the calls made, in order, stopping after the first
failing step: the probe; `CreateObject` when the probe succeeded and reported the bundle
absent; `CreateTabletCells` with count 1 for `default`, then for `sys`; and the ledger write
when everything before it succeeded. -/
def bundleInitCalls (r : tabletNode) (env : Env) (sysBundleExists : Bool) : List Call :=
  .NodeExists "//sys/tablet_cell_bundles/sys" ::
    (if env.nodeExistsErr.isSome then []
     else
      (if sysBundleExists then [] else [.CreateObject "sys" "sys" "sys"]) ++
      (if !sysBundleExists && env.createObjectErr.isSome then []
       else
        .CreateTabletCells "default" 1 ::
          (if (env.createTabletCellsErr "default").isSome then []
           else
            .CreateTabletCells "sys" 1 ::
              (if (env.createTabletCellsErr "sys").isSome then []
               else [.SetStatusCondition r.initBundlesDone]))))

/-- Outcomes in which the `sys` bundle is created but the cell-count step for `default`
fails. -/
def Env.defaultCellsFail : Env :=
  { Env.allOk with
    createTabletCellsErr := fun bundle => if bundle = "default" then some "no cells" else none }

/-- Modelled from the spec: the fixed default login and password literals are never empty
strings.  The constants `consts.DefaultAdminLogin` and `consts.DefaultAdminPassword` are
declared outside the given sources; the default token is the default password constant. -/
def Deps.defaultsNonEmpty (d : Deps) : Bool :=
  d.DefaultAdminLogin != "" && d.DefaultAdminPassword != ""

/-- A master whose admin credentials secret was fetched and holds only a login. -/
def master.withLoginSecret : master :=
  { NewMaster with adminCredentials := { Name := "ytadminsec", Data := [("login", "root")] } }

/-- A fresh cluster whose server is out of sync while its pods are ready. -/
def World.outOfSync : World :=
  { World.fresh with needSync := true, isInSync := false }

/-- The first real pass of `tabletNode.doSync` takes the server-sync step and a second pass
would go on to bundle initialization. -/
def tabletNode.syncsThenInitializes (r : tabletNode) (w : World) : Prop :=
  ¬ (w.clusterState = ClusterStateUpdating ∧
      w.updateState = UpdateStateWaitingForPodsRemoval) ∧
    w.isInSync = false ∧ w.podsReady = true ∧ r.doInitialization = true ∧
    conditionValue w.conditions r.initBundlesCondition ≠ ConditionTrue ∧
    w.clientStatus = SyncStatusReady

/-- The first real pass of `master.doSync` takes the server-sync step while the pods are
ready, so that a second pass would go on to the Init Job. -/
def master.syncsThenInitializes (w : World) : Prop :=
  ¬ (w.clusterState = ClusterStateRunning ∧ w.needUpdate = true) ∧
    ¬ (w.clusterState = ClusterStateUpdating ∧
      w.updateState = UpdateStateWaitingForPodsRemoval ∧ w.localUpdatingComponents = none) ∧
    w.needSync = true ∧ w.podsReady = true

/-- A world in which the Init Job's Task exists and is still running, completion unrecorded. -/
def World.jobRunning : World :=
  { World.fresh with jobExists := true, jobCompleted := false }

/-- The bootstrap script the master assembles from the sample constants when every call
succeeds. -/
def Deps.sampleScript : String :=
  match NewMaster.createInitScript Deps.sample Env.allOk with
  | .ok script => script
  | .error _ => ""

/-- Outcomes in which every call succeeds except the delete of the Task. -/
def Env.deleteFails : Env :=
  { Env.allOk with deleteObjectErr := some "delete failed" }

/-- The condition `InitJob.prepareRestart` writes. -/
def InitJob.needRestart (j : InitJob) : Condition :=
  { type := j.initCompletedCondition
    status := ConditionFalse
    reason := "InitJobNeedRestart"
    message := "Init job needs restart" }

/-- The condition `InitJob.Sync` writes when the Task has completed. -/
def InitJob.completed (j : InitJob) : Condition :=
  { type := j.initCompletedCondition
    status := ConditionTrue
    reason := "InitJobCompleted"
    message := "Init job successfully completed" }

/-- A world in which the Init Job's Task has completed and the completion is not yet
recorded. -/
def World.completedUnrecorded : World :=
  { World.fresh with jobExists := true, jobCompleted := true }

/-- The observable state of the claims on idempotence: server sync state, pods, Init Job Task
and stored config artifact, condition values, bundles and cells and the cluster-level state;
that is the world without the call log and without the in-memory memo fields of the Init Job
object (`builtJob`, and the script held by the built config map). -/
def World.observable (w : World) : World :=
  { w with trace := [], initScript := none, builtJob := false }

/-- The first real pass of `master.doSync` takes the server-sync step while the pods are
ready, and the Init Job is in a state in which its `Sync` acts: condition not `True` and the
Task absent (NotStarted) or completed (Completed-unrecorded). -/
def master.syncsThenActs (m : master) (w : World) : Prop :=
  master.syncsThenInitializes w ∧
    conditionValue w.conditions m.initJob.initCompletedCondition ≠ ConditionTrue ∧
    (w.jobExists = false ∨ w.jobCompleted = true)

/-- A cluster whose master server is out of sync while its pods are ready and its Init Job is
done and recorded. -/
def World.doneOutOfSync : World :=
  { World.initDone with needSync := true, isInSync := false }

/-! ## Lemmas on the Condition Ledger and the call log -/

theorem conditionValue_setCondition (cs : List Condition) (c : Condition) :
    conditionValue (setCondition cs c) c.type = c.status := by
  induction cs with
  | nil => simp [setCondition, conditionValue, FindStatusCondition]
  | cons a as ih =>
    by_cases h : a.type = c.type
    · simp [setCondition, conditionValue, FindStatusCondition, h]
    · simp only [conditionValue, FindStatusCondition] at ih
      simp [setCondition, conditionValue, FindStatusCondition, h, ih]

theorem since_append (w0 : World) (l : List Call) (w : World) (h : w.trace = w0.trace ++ l) :
    w0.since w = l := by
  simp [World.since, h]

/-- When the completion condition is `True`, `InitJob.Sync` returns `(Ready, nil)` after the
single ledger read and changes nothing. -/
theorem InitJob.Sync_done (j : InitJob) (env : Env) (dry : Bool) (w : World)
    (hTrue : conditionValue w.conditions j.initCompletedCondition = ConditionTrue) :
    j.Sync env dry w =
      ((SyncStatusReady, none), w.log (.IsStatusConditionTrue j.initCompletedCondition)) := by
  simp [InitJob.Sync, IsStatusConditionTrue, hTrue]

/-! ## Frame lemmas: logging a call changes nothing but the log -/

@[simp]
theorem World.log_conditions (w : World) (c : Call) : (w.log c).conditions = w.conditions := rfl

@[simp]
theorem World.logs_conditions (w : World) (l : List Call) : (w.logs l).conditions = w.conditions := rfl

@[simp]
theorem World.log_jobExists (w : World) (c : Call) : (w.log c).jobExists = w.jobExists := rfl

@[simp]
theorem World.logs_jobExists (w : World) (l : List Call) : (w.logs l).jobExists = w.jobExists := rfl

@[simp]
theorem World.log_jobCompleted (w : World) (c : Call) : (w.log c).jobCompleted = w.jobCompleted := rfl

@[simp]
theorem World.logs_jobCompleted (w : World) (l : List Call) : (w.logs l).jobCompleted = w.jobCompleted := rfl

@[simp]
theorem World.log_storedConfigMap (w : World) (c : Call) : (w.log c).storedConfigMap = w.storedConfigMap := rfl

@[simp]
theorem World.logs_storedConfigMap (w : World) (l : List Call) : (w.logs l).storedConfigMap = w.storedConfigMap := rfl

@[simp]
theorem World.log_builtJob (w : World) (c : Call) : (w.log c).builtJob = w.builtJob := rfl

@[simp]
theorem World.logs_builtJob (w : World) (l : List Call) : (w.logs l).builtJob = w.builtJob := rfl

@[simp]
theorem World.log_initScript (w : World) (c : Call) : (w.log c).initScript = w.initScript := rfl

@[simp]
theorem World.logs_initScript (w : World) (l : List Call) : (w.logs l).initScript = w.initScript := rfl

@[simp]
theorem World.log_clusterState (w : World) (c : Call) : (w.log c).clusterState = w.clusterState := rfl

@[simp]
theorem World.logs_clusterState (w : World) (l : List Call) : (w.logs l).clusterState = w.clusterState := rfl

@[simp]
theorem World.log_updateState (w : World) (c : Call) : (w.log c).updateState = w.updateState := rfl

@[simp]
theorem World.logs_updateState (w : World) (l : List Call) : (w.logs l).updateState = w.updateState := rfl

@[simp]
theorem World.log_localUpdatingComponents (w : World) (c : Call) : (w.log c).localUpdatingComponents = w.localUpdatingComponents := rfl

@[simp]
theorem World.logs_localUpdatingComponents (w : World) (l : List Call) : (w.logs l).localUpdatingComponents = w.localUpdatingComponents := rfl

@[simp]
theorem World.log_needUpdate (w : World) (c : Call) : (w.log c).needUpdate = w.needUpdate := rfl

@[simp]
theorem World.logs_needUpdate (w : World) (l : List Call) : (w.logs l).needUpdate = w.needUpdate := rfl

@[simp]
theorem World.log_needSync (w : World) (c : Call) : (w.log c).needSync = w.needSync := rfl

@[simp]
theorem World.logs_needSync (w : World) (l : List Call) : (w.logs l).needSync = w.needSync := rfl

@[simp]
theorem World.log_isInSync (w : World) (c : Call) : (w.log c).isInSync = w.isInSync := rfl

@[simp]
theorem World.logs_isInSync (w : World) (l : List Call) : (w.logs l).isInSync = w.isInSync := rfl

@[simp]
theorem World.log_podsReady (w : World) (c : Call) : (w.log c).podsReady = w.podsReady := rfl

@[simp]
theorem World.logs_podsReady (w : World) (l : List Call) : (w.logs l).podsReady = w.podsReady := rfl

@[simp]
theorem World.log_clientStatus (w : World) (c : Call) : (w.log c).clientStatus = w.clientStatus := rfl

@[simp]
theorem World.logs_clientStatus (w : World) (l : List Call) : (w.logs l).clientStatus = w.clientStatus := rfl

@[simp]
theorem World.log_sysBundleExists (w : World) (c : Call) : (w.log c).sysBundleExists = w.sysBundleExists := rfl

@[simp]
theorem World.logs_sysBundleExists (w : World) (l : List Call) : (w.logs l).sysBundleExists = w.sysBundleExists := rfl

@[simp]
theorem World.log_tabletCells (w : World) (c : Call) : (w.log c).tabletCells = w.tabletCells := rfl

@[simp]
theorem World.logs_tabletCells (w : World) (l : List Call) : (w.logs l).tabletCells = w.tabletCells := rfl

@[simp]
theorem World.log_trace (w : World) (c : Call) : (w.log c).trace = w.trace ++ [c] := rfl

@[simp]
theorem World.logs_trace (w : World) (l : List Call) :
    (w.logs l).trace = w.trace ++ l := rfl

@[simp]
theorem World.log_state (w : World) (c : Call) : (w.log c).state = w.state := rfl

@[simp]
theorem World.logs_state (w : World) (l : List Call) : (w.logs l).state = w.state := rfl

theorem World.log_eq_logs (w : World) (c : Call) : w.log c = w.logs [c] := rfl

@[simp]
theorem World.logs_logs (w : World) (l l1 : List Call) :
    (w.logs l).logs l1 = w.logs (l ++ l1) := by
  simp [World.logs]

@[simp]
theorem World.logs_nil (w : World) : w.logs [] = w := by
  simp [World.logs]

@[simp]
theorem World.logs_mutations (w : World) (l : List Call) :
    (w.logs l).mutations = w.mutations ++ l.filter Call.mutating := by
  simp [World.logs, World.mutations]

@[simp]
theorem World.since_logs (w : World) (l : List Call) : w.since (w.logs l) = l := by
  simp [World.since, World.logs]

/-- Normal form of `InitJob.Sync`: the decision table over the completion condition, the
presence of the Task and its completion. -/
theorem InitJob.Sync_eq (j : InitJob) (env : Env) (dry : Bool) (w : World) :
    j.Sync env dry w =
      if conditionValue w.conditions j.initCompletedCondition = ConditionTrue then
        ((SyncStatusReady, none), w.logs [.IsStatusConditionTrue j.initCompletedCondition])
      else if w.jobExists = false then
        if dry then
          ((SyncStatusPending, none),
            w.logs [.IsStatusConditionTrue j.initCompletedCondition, .Exists])
        else
          ((SyncStatusPending,
            (resources.Sync env (j.Build
              (w.logs [.IsStatusConditionTrue j.initCompletedCondition, .Exists]))).1),
            (resources.Sync env (j.Build
              (w.logs [.IsStatusConditionTrue j.initCompletedCondition, .Exists]))).2)
      else if w.jobCompleted = false then
        ((SyncStatusBlocked, none),
          w.logs [.IsStatusConditionTrue j.initCompletedCondition, .Exists, .Completed])
      else if dry then
        ((SyncStatusPending, none),
          w.logs [.IsStatusConditionTrue j.initCompletedCondition, .Exists, .Completed])
      else
        ((SyncStatusPending,
          (SetStatusCondition env
            { type := j.initCompletedCondition
              status := ConditionTrue
              reason := "InitJobCompleted"
              message := "Init job successfully completed" }
            (w.logs [.IsStatusConditionTrue j.initCompletedCondition, .Exists, .Completed])).1),
          (SetStatusCondition env
            { type := j.initCompletedCondition
              status := ConditionTrue
              reason := "InitJobCompleted"
              message := "Init job successfully completed" }
            (w.logs [.IsStatusConditionTrue j.initCompletedCondition, .Exists, .Completed])).2) := by
  by_cases hc : conditionValue w.conditions j.initCompletedCondition = ConditionTrue
  · simp [InitJob.Sync, IsStatusConditionTrue, hc, World.log_eq_logs]
  · cases he : w.jobExists
    · cases dry <;>
        simp [InitJob.Sync, IsStatusConditionTrue, resources.Exists, hc, he, World.log_eq_logs]
    · cases hk : w.jobCompleted <;> cases dry <;>
        simp [InitJob.Sync, IsStatusConditionTrue, resources.Exists, resources.Completed, hc, he,
          hk, World.log_eq_logs]

/-- Normal form of the first guard of `master.doSync`. -/
theorem master.needUpdateGuard_eq (w : World) :
    master.needUpdateGuard w =
      (decide (w.clusterState = ClusterStateRunning) && w.needUpdate,
        w.logs (.GetClusterState ::
          (if w.clusterState = ClusterStateRunning then [.NeedUpdate] else []))) := by
  by_cases h : w.clusterState = ClusterStateRunning <;>
    simp [master.needUpdateGuard, GetClusterState, server.NeedUpdate, World.log, World.logs, h]

/-- Normal form of the pod-removal guard of `master.doSync`. -/
theorem master.podsRemovalGuard_eq (w : World) :
    master.podsRemovalGuard w =
      (decide (w.clusterState = ClusterStateUpdating) &&
          decide (w.updateState = UpdateStateWaitingForPodsRemoval) &&
          w.localUpdatingComponents.isNone,
        w.logs (.GetClusterState ::
          (if w.clusterState = ClusterStateUpdating then
            .GetUpdateState ::
              (if w.updateState = UpdateStateWaitingForPodsRemoval then
                [.GetLocalUpdatingComponents] else [])
           else []))) := by
  by_cases h : w.clusterState = ClusterStateUpdating <;>
    by_cases h1 : w.updateState = UpdateStateWaitingForPodsRemoval <;>
    simp [master.podsRemovalGuard, GetClusterState, GetUpdateState, GetLocalUpdatingComponents,
      World.log, World.logs, h, h1]

/-- Normal form of the pod-removal guard of `tabletNode.doSync`. -/
theorem tabletNode.podsRemovalGuard_eq_tablet (w : World) :
    tabletNode.podsRemovalGuard w =
      (decide (w.clusterState = ClusterStateUpdating) &&
          decide (w.updateState = UpdateStateWaitingForPodsRemoval),
        w.logs (.GetClusterState ::
          (if w.clusterState = ClusterStateUpdating then [.GetUpdateState] else []))) := by
  by_cases h : w.clusterState = ClusterStateUpdating <;>
    simp [tabletNode.podsRemovalGuard, GetClusterState, GetUpdateState, World.log, World.logs, h]

/-- Normal form of the initialization guard of `tabletNode.doSync`. -/
theorem tabletNode.initDoneGuard_eq (r : tabletNode) (w : World) :
    r.initDoneGuard w =
      (!r.doInitialization ||
          decide (conditionValue w.conditions r.initBundlesCondition = ConditionTrue),
        w.logs (if r.doInitialization then [.IsStatusConditionTrue r.initBundlesCondition]
          else [])) := by
  cases h : r.doInitialization <;>
    simp [tabletNode.initDoneGuard, IsStatusConditionTrue, World.log, World.logs, h]

/-- Normal form of `tabletNode.doSync`: the decision order over the observations, with the
reads each branch has made. -/
theorem tabletNode.doSync_eq_tablet (r : tabletNode) (env : Env) (dry : Bool) (w : World) :
    r.doSync env dry w =
      if w.clusterState = ClusterStateUpdating ∧
          w.updateState = UpdateStateWaitingForPodsRemoval then
        ((SyncStatusUpdating, (removePods env dry (w.logs (tabletNode.guardCalls w))).1),
          (removePods env dry (w.logs (tabletNode.guardCalls w))).2)
      else if w.isInSync = false then
        if dry then
          ((SyncStatusPending, none), w.logs (tabletNode.guardCalls w ++ [.IsInSync]))
        else
          ((SyncStatusPending,
            (server.Sync env (w.logs (tabletNode.guardCalls w ++ [.IsInSync]))).1),
            (server.Sync env (w.logs (tabletNode.guardCalls w ++ [.IsInSync]))).2)
      else if w.podsReady = false then
        ((SyncStatusBlocked, none),
          w.logs (tabletNode.guardCalls w ++ [.IsInSync, .ArePodsReady]))
      else if r.doInitialization = false ∨
          conditionValue w.conditions r.initBundlesCondition = ConditionTrue then
        ((SyncStatusReady, none), w.logs (r.readsToInitGuard w))
      else if w.clientStatus ≠ SyncStatusReady then
        ((SyncStatusBlocked, none), w.logs (r.readsToInitGuard w ++ [.ClientStatus]))
      else if dry then
        ((SyncStatusPending, none),
          w.logs (r.readsToInitGuard w ++ [.ClientStatus, .GetYtClient]))
      else
        r.initBundles env (w.logs (r.readsToInitGuard w ++ [.ClientStatus, .GetYtClient])) := by
  unfold tabletNode.doSync
  simp only [tabletNode.podsRemovalGuard_eq_tablet]
  by_cases hg : w.clusterState = ClusterStateUpdating ∧
      w.updateState = UpdateStateWaitingForPodsRemoval
  · simp [hg, tabletNode.guardCalls]
  · have hg1 : (decide (w.clusterState = ClusterStateUpdating) &&
        decide (w.updateState = UpdateStateWaitingForPodsRemoval)) = false := by
      simpa using hg
    simp only [hg1, hg, server.IsInSync, World.logs_isInSync, World.log_eq_logs,
      World.logs_logs, Bool.false_eq_true, if_false]
    cases hs : w.isInSync
    · cases dry <;> simp [tabletNode.guardCalls]
    · simp only [server.ArePodsReady, World.logs_podsReady, World.log_eq_logs, World.logs_logs,
        Bool.not_true, Bool.false_eq_true, if_false]
      cases hp : w.podsReady
      · simp [tabletNode.guardCalls]
      · simp only [tabletNode.initDoneGuard_eq, World.logs_conditions, World.logs_logs,
          Bool.not_true, Bool.false_eq_true, if_false]
        by_cases ht : r.doInitialization = false ∨
            conditionValue w.conditions r.initBundlesCondition = ConditionTrue
        · rcases ht with ht | ht <;>
            simp [ht, tabletNode.guardCalls, tabletNode.readsToInitGuard]
        · have hd : r.doInitialization = true := by
            cases h : r.doInitialization <;> simp_all
          have hc : ¬ conditionValue w.conditions r.initBundlesCondition = ConditionTrue :=
            fun h => ht (Or.inr h)
          simp only [hd, hc, ytsaurusClient.Status, ytsaurusClient.GetYtClient,
            World.logs_clientStatus, World.log_eq_logs, World.logs_logs]
          by_cases hcl : w.clientStatus = SyncStatusReady <;> cases dry <;>
            simp [hcl, tabletNode.guardCalls, tabletNode.readsToInitGuard, hd]

/-- Normal form of `master.doSync`: the decision order over the observations, with the reads
each branch has made. -/
theorem master.doSync_eq (d : Deps) (m : master) (env : Env) (dry : Bool) (w : World) :
    m.doSync d env dry w =
      if w.clusterState = ClusterStateRunning ∧ w.needUpdate = true then
        (.returned (SyncStatusNeedFullUpdate, none), w.logs [.GetClusterState, .NeedUpdate])
      else if w.clusterState = ClusterStateUpdating ∧
          w.updateState = UpdateStateWaitingForPodsRemoval ∧
          w.localUpdatingComponents = none then
        (.returned (SyncStatusUpdating, (removePods env dry (w.logs (master.guardCalls w))).1),
          (removePods env dry (w.logs (master.guardCalls w))).2)
      else if w.needSync = true then
        if dry then
          (.returned (SyncStatusPending, none), w.logs (master.guardCalls w ++ [.NeedSync]))
        else
          (.returned (SyncStatusPending,
            (server.Sync env (w.logs (master.guardCalls w ++ [.NeedSync]))).1),
            (server.Sync env (w.logs (master.guardCalls w ++ [.NeedSync]))).2)
      else if w.podsReady = false then
        (.returned (SyncStatusBlocked, none),
          w.logs (master.guardCalls w ++ [.NeedSync, .ArePodsReady]))
      else if dry then
        (.returned (m.initJob.Sync env true
            (w.logs (master.guardCalls w ++ [.NeedSync, .ArePodsReady]))).1,
          (m.initJob.Sync env true
            (w.logs (master.guardCalls w ++ [.NeedSync, .ArePodsReady]))).2)
      else
        match m.createInitScript d env with
        | .error e =>
          (.panicked e, w.logs (master.guardCalls w ++ [.NeedSync, .ArePodsReady]))
        | .ok script =>
          (.returned (m.initJob.Sync env false (m.initJob.SetInitScript script
              (w.logs (master.guardCalls w ++ [.NeedSync, .ArePodsReady])))).1,
            (m.initJob.Sync env false (m.initJob.SetInitScript script
              (w.logs (master.guardCalls w ++ [.NeedSync, .ArePodsReady])))).2) := by
  unfold master.doSync
  simp only [master.needUpdateGuard_eq]
  by_cases hn : w.clusterState = ClusterStateRunning ∧ w.needUpdate = true
  · simp [hn]
  · have hn1 : (decide (w.clusterState = ClusterStateRunning) && w.needUpdate) = false := by
      simpa using hn
    simp only [hn1, hn, master.podsRemovalGuard_eq, World.logs_clusterState,
      World.logs_updateState, World.logs_localUpdatingComponents, World.logs_logs,
      Bool.false_eq_true, if_false]
    have hcalls : (Call.GetClusterState ::
        if w.clusterState = ClusterStateRunning then [Call.NeedUpdate] else []) ++
        Call.GetClusterState ::
          (if w.clusterState = ClusterStateUpdating then
            Call.GetUpdateState ::
              (if w.updateState = UpdateStateWaitingForPodsRemoval then
                [Call.GetLocalUpdatingComponents] else [])
           else []) = master.guardCalls w := by
      simp [master.guardCalls]
    rw [hcalls]
    by_cases hg : w.clusterState = ClusterStateUpdating ∧
        w.updateState = UpdateStateWaitingForPodsRemoval ∧ w.localUpdatingComponents = none
    · simp [hg]
    · have hg1 : (decide (w.clusterState = ClusterStateUpdating) &&
          decide (w.updateState = UpdateStateWaitingForPodsRemoval) &&
          w.localUpdatingComponents.isNone) = false := by
        rw [Bool.eq_false_iff]
        intro h
        apply hg
        simpa [Option.isNone_iff_eq_none, and_assoc] using h
      simp only [hg1, hg, server.NeedSync, server.ArePodsReady, World.logs_needSync,
        World.logs_podsReady, World.log_podsReady, World.log_eq_logs, World.logs_logs,
        Bool.false_eq_true, if_false]
      cases hs : w.needSync
      · cases hp : w.podsReady
        · simp
        · cases dry
          · cases hscript : m.createInitScript d env <;> simp
          · simp
      · cases dry <;> simp

/-! ## Theorems -/

/-- C1: Init Job monotonicity.  In every state whose completion condition is `True`, for both
values of `dry` and every outcome of the collaborators, `InitJob.Sync` returns `(Ready, nil)`,
makes the single ledger read and no other call, and leaves the state unchanged; any sequence
of consecutive `Sync` calls returns `(Ready, nil)` every time, leaves the state unchanged and
issues no mutating call (the Task is never recreated); and after a `prepareRestart(dry=false)`
that returns no error the condition is `False` and `Sync` no longer reports `Ready`. -/
theorem C1_initJob_monotonicity (j : InitJob) (w : World)
    (hTrue : conditionValue w.conditions j.initCompletedCondition = ConditionTrue) :
    (∀ (env : Env) (dry : Bool),
      (j.Sync env dry w).1 = (SyncStatusReady, none) ∧
      w.since (j.Sync env dry w).2 = [.IsStatusConditionTrue j.initCompletedCondition] ∧
      (j.Sync env dry w).2.state = w.state) ∧
    (∀ passes : List (Env × Bool),
      (j.syncs passes w).1 = List.replicate passes.length (SyncStatusReady, none) ∧
      (j.syncs passes w).2.state = w.state ∧
      (j.syncs passes w).2.mutations = w.mutations) ∧
    (∀ (env env1 : Env) (dry : Bool), (j.prepareRestart env false w).1 = none →
      conditionValue (j.prepareRestart env false w).2.conditions j.initCompletedCondition
        = ConditionFalse ∧
      (j.Sync env1 dry (j.prepareRestart env false w).2).1.1 ≠ SyncStatusReady) := by
  refine ⟨?_, ?_, ?_⟩
  · intro env dry
    rw [InitJob.Sync_done j env dry w hTrue]
    simp [World.since, World.log, World.state]
  · intro passes
    induction passes generalizing w with
    | nil => simp [InitJob.syncs]
    | cons p ps ih =>
      obtain ⟨env, dry⟩ := p
      have hw : conditionValue (w.log (.IsStatusConditionTrue j.initCompletedCondition)).conditions
          j.initCompletedCondition = ConditionTrue := by simpa [World.log] using hTrue
      have := ih _ hw
      simp only [InitJob.syncs, InitJob.Sync_done j env dry w hTrue, List.length_cons,
        List.replicate_succ, this.1, this.2.1, this.2.2, true_and]
      simp [World.state, World.log, World.mutations, Call.mutating]
  · intro env env1 dry hok
    have hcond : conditionValue (j.prepareRestart env false w).2.conditions
        j.initCompletedCondition = ConditionFalse := by
      revert hok
      simp only [InitJob.prepareRestart, InitJob.removeIfExists, resources.Exists, DeleteObject,
        SetStatusCondition, World.log]
      cases w.jobExists <;> cases env.deleteObjectErr <;> cases env.setStatusConditionErr <;>
        simp [conditionValue_setCondition
          w.conditions ⟨j.initCompletedCondition, ConditionFalse, "InitJobNeedRestart",
            "Init job needs restart"⟩]
    refine ⟨hcond, ?_⟩
    simp only [InitJob.Sync, IsStatusConditionTrue, hcond]
    simp only [reduceCtorEq, decide_False, Bool.false_eq_true, if_false]
    repeat' split
    all_goals simp

/-- Witness of C1 at the master's Init Job with its completion recorded: three consecutive real
passes all report `(Ready, nil)`. -/
theorem C1_initJob_monotonicity_witness :
    conditionValue World.initDone.conditions NewMaster.initJob.initCompletedCondition
      = ConditionTrue ∧
    (NewMaster.initJob.syncs [(Env.allOk, false), (Env.allOk, true), (Env.allOk, false)]
      World.initDone).1 = List.replicate 3 (SyncStatusReady, none) :=
  ⟨by decide, ((C1_initJob_monotonicity NewMaster.initJob World.initDone (by decide)).2.1
    [(Env.allOk, false), (Env.allOk, true), (Env.allOk, false)]).1⟩

/-- C2: the four-call scenario of the Init Job.  From a state with the Task absent and the
completion condition `Unknown`, with `dry=false` and the Resource Store create and the ledger
write succeeding: the first `Sync` builds the job, syncs the config map and the Task and returns
`(Pending, nil)`; the second finds the Task present and not completed, returns `(Blocked, nil)`
and changes nothing; the third, after the Task reports completed, returns `(Pending, nil)` and
leaves the condition `True`; the fourth returns `(Ready, nil)`. -/
theorem C2_initJob_four_calls (j : InitJob) (w0 : World) (e1 e2 e3 e4 : Env)
    (hAbsent : w0.jobExists = false)
    (hUnknown : conditionValue w0.conditions j.initCompletedCondition = ConditionUnknown)
    (hCreate : e1.resourcesSyncErr = none)
    (hLedger : e3.setStatusConditionErr = none) :
    (j.Sync e1 false w0).1 = (SyncStatusPending, none) ∧
    w0.since (j.Sync e1 false w0).2 =
      [.IsStatusConditionTrue j.initCompletedCondition, .Exists] ++
      (if w0.builtJob then [] else [.JobBuild]) ++ [.ResourcesSync w0.initScript] ∧
    (j.Sync e1 false w0).2.jobExists = true ∧
    (j.Sync e1 false w0).2.storedConfigMap = some w0.initScript ∧
    (j.Sync e2 false (j.Sync e1 false w0).2).1 = (SyncStatusBlocked, none) ∧
    (j.Sync e2 false (j.Sync e1 false w0).2).2.state = (j.Sync e1 false w0).2.state ∧
    (j.Sync e2 false (j.Sync e1 false w0).2).2.mutations = (j.Sync e1 false w0).2.mutations ∧
    (j.Sync e3 false (taskCompletes (j.Sync e2 false (j.Sync e1 false w0).2).2)).1
      = (SyncStatusPending, none) ∧
    conditionValue
      (j.Sync e3 false (taskCompletes (j.Sync e2 false (j.Sync e1 false w0).2).2)).2.conditions
      j.initCompletedCondition = ConditionTrue ∧
    (j.Sync e4 false
      (j.Sync e3 false (taskCompletes (j.Sync e2 false (j.Sync e1 false w0).2).2)).2).1
      = (SyncStatusReady, none) := by
  have hc := conditionValue_setCondition w0.conditions
    ⟨j.initCompletedCondition, ConditionTrue, "InitJobCompleted",
      "Init job successfully completed"⟩
  simp only at hc
  cases hb : w0.builtJob <;>
    simp [InitJob.Sync, InitJob.Build, IsStatusConditionTrue, resources.Exists, resources.Sync,
      resources.Completed, SetStatusCondition, taskCompletes, World.log, World.since,
      World.state, World.mutations, Call.mutating, hAbsent, hUnknown, hCreate, hLedger, hb, hc]

/-- Witness of C2 at the master's Init Job in a fresh world with every call succeeding. -/
theorem C2_initJob_four_calls_witness :
    World.fresh.jobExists = false ∧
    conditionValue World.fresh.conditions NewMaster.initJob.initCompletedCondition
      = ConditionUnknown ∧
    (NewMaster.initJob.Sync Env.allOk false World.fresh).1 = (SyncStatusPending, none) ∧
    (NewMaster.initJob.Sync Env.allOk false
      (NewMaster.initJob.Sync Env.allOk false World.fresh).2).1 = (SyncStatusBlocked, none) :=
  ⟨rfl, by decide,
    (C2_initJob_four_calls NewMaster.initJob World.fresh Env.allOk Env.allOk Env.allOk Env.allOk
      rfl (by decide) rfl rfl).1,
    (C2_initJob_four_calls NewMaster.initJob World.fresh Env.allOk Env.allOk Env.allOk Env.allOk
      rfl (by decide) rfl rfl).2.2.2.2.1⟩

/-- The status `InitJob.Sync` returns depends only on the completion condition and on the
presence and completion of the Task, not on `dry` or on the collaborators' outcomes. -/
theorem InitJob.Sync_status_congr (j : InitJob) (env env1 : Env) (dry dry1 : Bool)
    (w w1 : World) (hc : w.conditions = w1.conditions) (he : w.jobExists = w1.jobExists)
    (hk : w.jobCompleted = w1.jobCompleted) :
    (j.Sync env dry w).1.1 = (j.Sync env1 dry1 w1).1.1 := by
  simp only [InitJob.Sync, IsStatusConditionTrue, resources.Exists, resources.Completed,
    World.log, hc, he, hk]
  repeat' split
  all_goals simp_all

/-- Counterexample to C3 as stated: with the cluster running, the server in sync, the pods
ready and the config generator failing on `GetClusterConnection`, the probe `doSync(dry=true)`
of the master returns `Pending` while `doSync(dry=false)` panics inside `createInitScript` and
returns no status. -/
theorem C3_counterexample :
    (NewMaster.doSync Deps.sample Env.cfgenFails true World.fresh).1
      = .returned (SyncStatusPending, none) ∧
    (NewMaster.doSync Deps.sample Env.cfgenFails false World.fresh).1
      = .panicked "cluster connection unavailable" ∧
    (NewMaster.doSync Deps.sample Env.cfgenFails true World.fresh).1.status?
      ≠ (NewMaster.doSync Deps.sample Env.cfgenFails false World.fresh).1.status? := by
  decide

/-- Every path through the bundle-initialization block returns the status `Pending`. -/
theorem tabletNode.initBundles_status (r : tabletNode) (env : Env) (w : World) :
    (r.initBundles env w).1.1 = SyncStatusPending := by
  unfold tabletNode.initBundles
  simp only
  repeat' split
  all_goals rfl

/-- C3 (amended): dry/real status equivalence.  For `InitJob.Sync` and `tabletNode.doSync`, for
every state and every outcome of the collaborator calls, the status returned with `dry=true`
equals the status returned with `dry=false`.  `master.doSync(dry=true)` always returns a
status, and `master.doSync(dry=false)` returns the same status unless `createInitScript`
panics (the config generator or the marshalling of an extra medium fails), in which case it
panics with that error. -/
theorem C3_dry_real_status (j : InitJob) (r : tabletNode) (d : Deps) (m : master) (env : Env)
    (w : World) :
    (j.Sync env true w).1.1 = (j.Sync env false w).1.1 ∧
    (r.doSync env true w).1.1 = (r.doSync env false w).1.1 ∧
    (∃ s, (m.doSync d env true w).1.status? = some s ∧
      ((m.doSync d env false w).1.status? = some s ∨
        ∃ e, m.createInitScript d env = .error e ∧
          (m.doSync d env false w).1 = .panicked e)) := by
  refine ⟨InitJob.Sync_status_congr j env env true false w w rfl rfl rfl, ?_, ?_⟩
  · rw [tabletNode.doSync_eq_tablet, tabletNode.doSync_eq_tablet]
    split_ifs <;> simp [tabletNode.initBundles_status]
  · rw [master.doSync_eq, master.doSync_eq]
    simp only [Bool.false_eq_true, ↓reduceIte]
    split_ifs
    · simp [Outcome.status?]
    · simp [Outcome.status?]
    · simp [Outcome.status?]
    · simp [Outcome.status?]
    · simp only [Outcome.status?]
      cases hs : m.createInitScript d env with
      | error e => simp
      | ok script =>
        simp only [exists_eq_left', Option.some.injEq, reduceCtorEq, false_and,
          exists_false, or_false]
        apply InitJob.Sync_status_congr <;> rfl

/-- The probe `InitJob.Sync(dry=true)` returns a nil error, makes only reads and leaves the
state unchanged. -/
theorem InitJob.Sync_dry (j : InitJob) (env : Env) (w : World) :
    (j.Sync env true w).1.2 = none ∧
    (w.since (j.Sync env true w).2).filter Call.barredFromProbe = [] ∧
    (w.since (j.Sync env true w).2).filter Call.mutating = [] ∧
    (j.Sync env true w).2.state = w.state := by
  rw [InitJob.Sync_eq]
  simp only [↓reduceIte]
  split_ifs <;> simp [Call.barredFromProbe, Call.mutating]

/-- C4: Init Job probe purity.  For every state and every outcome of the collaborators,
`InitJob.Sync(dry=true)` returns a nil error, issues no mutating call (no Resource Store sync,
no delete, no `SetStatusCondition`, no build) and leaves the state unchanged;
`prepareRestart(dry=true)` returns nil and makes no call at all; and in the NotStarted state
(condition not `True`, Task absent) `Sync(dry=true)` returns `(Pending, nil)` after the two
reads, creating nothing. -/
theorem C4_initJob_probe_purity (j : InitJob) (env : Env) (w : World) :
    (j.Sync env true w).1.2 = none ∧
    (w.since (j.Sync env true w).2).filter Call.mutating = [] ∧
    (j.Sync env true w).2.state = w.state ∧
    j.prepareRestart env true w = (none, w) ∧
    (conditionValue w.conditions j.initCompletedCondition ≠ ConditionTrue →
      w.jobExists = false →
      j.Sync env true w = ((SyncStatusPending, none),
        w.logs [.IsStatusConditionTrue j.initCompletedCondition, .Exists])) := by
  refine ⟨(InitJob.Sync_dry j env w).1, (InitJob.Sync_dry j env w).2.2.1,
    (InitJob.Sync_dry j env w).2.2.2, by simp [InitJob.prepareRestart], ?_⟩
  intro hc he
  rw [InitJob.Sync_eq]
  simp [hc, he]

/-- Witness of C4 at the master's Init Job in a fresh world: the probe reports
`(Pending, nil)` and the Task is still absent. -/
theorem C4_initJob_probe_purity_witness :
    NewMaster.initJob.Sync Env.allOk true World.fresh = ((SyncStatusPending, none),
      World.fresh.logs [.IsStatusConditionTrue NewMaster.initJob.initCompletedCondition,
        .Exists]) :=
  (C4_initJob_probe_purity NewMaster.initJob Env.allOk World.fresh).2.2.2.2
    (by decide) rfl

theorem removePods_dry (env : Env) (w : World) :
    removePods env true w = (env.removePodsErr true, w.logs [.RemovePods true]) := by
  unfold removePods
  cases env.removePodsErr true <;> simp [World.log_eq_logs]

theorem master.guardCalls_barred (w : World) :
    (master.guardCalls w).filter Call.barredFromProbe = [] := by
  unfold master.guardCalls
  split_ifs <;> simp [Call.barredFromProbe]

theorem master.guardCalls_mutating (w : World) :
    (master.guardCalls w).filter Call.mutating = [] := by
  unfold master.guardCalls
  split_ifs <;> simp [Call.mutating]

theorem tabletNode.readsToInitGuard_barred (r : tabletNode) (w : World) :
    (tabletNode.guardCalls w).filter Call.barredFromProbe = [] ∧
    (r.readsToInitGuard w).filter Call.barredFromProbe = [] := by
  unfold tabletNode.readsToInitGuard tabletNode.guardCalls
  split_ifs <;> simp [Call.barredFromProbe]

theorem tabletNode.readsToInitGuard_mutating (r : tabletNode) (w : World) :
    (tabletNode.guardCalls w).filter Call.mutating = [] ∧
    (r.readsToInitGuard w).filter Call.mutating = [] := by
  unfold tabletNode.readsToInitGuard tabletNode.guardCalls
  split_ifs <;> simp [Call.mutating]

/-- The world after `InitJob.Sync(dry=true)` is the old world with reads appended. -/
theorem InitJob.Sync_dry_world (j : InitJob) (env : Env) (w : World) :
    ∃ l, (j.Sync env true w).2 = w.logs l ∧ l.filter Call.barredFromProbe = [] ∧
      l.filter Call.mutating = [] := by
  rw [InitJob.Sync_eq]
  simp only [↓reduceIte]
  split_ifs
  all_goals exact ⟨_, rfl, by simp [Call.barredFromProbe], by simp [Call.mutating]⟩

/-- The world after `master.doSync(dry=true)` is the old world with reads appended. -/
theorem master.doSync_dry_world (d : Deps) (m : master) (env : Env) (w : World) :
    ∃ l, (m.doSync d env true w).2 = w.logs l ∧ l.filter Call.barredFromProbe = [] ∧
      l.filter Call.mutating = [] := by
  rw [master.doSync_eq]
  simp only [↓reduceIte, removePods_dry]
  split_ifs
  · exact ⟨_, rfl, by simp [Call.barredFromProbe], by simp [Call.mutating]⟩
  · exact ⟨_, World.logs_logs _ _ _,
      by simp [Call.barredFromProbe, master.guardCalls_barred],
      by simp [Call.mutating, master.guardCalls_mutating]⟩
  · exact ⟨_, rfl, by simp [Call.barredFromProbe, master.guardCalls_barred],
      by simp [Call.mutating, master.guardCalls_mutating]⟩
  · exact ⟨_, rfl, by simp [Call.barredFromProbe, master.guardCalls_barred],
      by simp [Call.mutating, master.guardCalls_mutating]⟩
  · obtain ⟨l, hl, hb, hm⟩ := InitJob.Sync_dry_world m.initJob env
      (w.logs (master.guardCalls w ++ [.NeedSync, .ArePodsReady]))
    exact ⟨_, by rw [hl, World.logs_logs],
      by simp [Call.barredFromProbe, master.guardCalls_barred, hb],
      by simp [Call.mutating, master.guardCalls_mutating, hm]⟩

/-- The world after `tabletNode.doSync(dry=true)` is the old world with reads appended. -/
theorem tabletNode.doSync_dry_world_tablet (r : tabletNode) (env : Env) (w : World) :
    ∃ l, (r.doSync env true w).2 = w.logs l ∧ l.filter Call.barredFromProbe = [] ∧
      l.filter Call.mutating = [] := by
  rw [tabletNode.doSync_eq_tablet]
  simp only [↓reduceIte, removePods_dry]
  have hb := tabletNode.readsToInitGuard_barred r w
  have hm := tabletNode.readsToInitGuard_mutating r w
  split_ifs
  · exact ⟨_, World.logs_logs _ _ _, by simp [Call.barredFromProbe, hb.1],
      by simp [Call.mutating, hm.1]⟩
  all_goals
    exact ⟨_, rfl, by simp [Call.barredFromProbe, hb.1, hb.2],
      by simp [Call.mutating, hm.1, hm.2]⟩

theorem master.Status_world (d : Deps) (m : master) (env : Env) (w : World) :
    (m.Status d env w).2 = (m.doSync d env true w).2 := by
  unfold master.Status
  split <;> simp_all

theorem tabletNode.Status_world_tablet (r : tabletNode) (env : Env) (w : World) :
    (r.Status env w).2 = (r.doSync env true w).2 := by
  unfold tabletNode.Status
  split <;> simp_all

/-- Repeating a transformer that only appends reads to the log changes neither the state nor
the mutating calls made. -/
theorem runAll_reads (f : Env → World → World)
    (hf : ∀ env w, ∃ l, f env w = w.logs l ∧ l.filter Call.mutating = [])
    (envs : List Env) (w : World) :
    (runAll f envs w).state = w.state ∧ (runAll f envs w).mutations = w.mutations := by
  induction envs generalizing w with
  | nil => simp [runAll]
  | cons env rest ih =>
    obtain ⟨l, hl, hm⟩ := hf env w
    have := ih (f env w)
    rw [hl] at this
    simp only [runAll, hl, this.1, this.2, World.logs_state, World.logs_mutations, hm,
      List.append_nil, and_self]

/-- C5: component probe purity.  For every state and every outcome of the collaborators,
`master.doSync(dry=true)` and `tabletNode.doSync(dry=true)` make none of the barred calls
(`server.Sync`, `removePods` with `dry=false`, `SetInitScript`, the build or sync of the Init
Job's config and Task, a delete, `SetStatusCondition`, the YT client's `NodeExists`,
`CreateObject`, `CreateTabletCells`) and leave the state unchanged; so any number of
consecutive `Status` calls leaves the state unchanged and adds no mutating call. -/
theorem C5_component_probe_purity (d : Deps) (m : master) (r : tabletNode) (env : Env)
    (w : World) :
    (w.since (m.doSync d env true w).2).filter Call.barredFromProbe = [] ∧
    (m.doSync d env true w).2.state = w.state ∧
    (w.since (r.doSync env true w).2).filter Call.barredFromProbe = [] ∧
    (r.doSync env true w).2.state = w.state ∧
    (∀ envs : List Env,
      (runAll (fun e v => (m.Status d e v).2) envs w).state = w.state ∧
      (runAll (fun e v => (m.Status d e v).2) envs w).mutations = w.mutations) ∧
    (∀ envs : List Env,
      (runAll (fun e v => (r.Status e v).2) envs w).state = w.state ∧
      (runAll (fun e v => (r.Status e v).2) envs w).mutations = w.mutations) := by
  obtain ⟨l, hl, hb, _⟩ := master.doSync_dry_world d m env w
  obtain ⟨l1, hl1, hb1, _⟩ := tabletNode.doSync_dry_world_tablet r env w
  refine ⟨by rw [hl, World.since_logs, hb], by rw [hl, World.logs_state],
    by rw [hl1, World.since_logs, hb1], by rw [hl1, World.logs_state], ?_, ?_⟩
  · intro envs
    apply runAll_reads
    intro e v
    obtain ⟨l2, h2, _, hm2⟩ := master.doSync_dry_world d m e v
    exact ⟨l2, by rw [master.Status_world, h2], hm2⟩
  · intro envs
    apply runAll_reads
    intro e v
    obtain ⟨l2, h2, _, hm2⟩ := tabletNode.doSync_dry_world_tablet r e v
    exact ⟨l2, by rw [tabletNode.Status_world_tablet, h2], hm2⟩

theorem master.Status_of_returned (d : Deps) (m : master) (env : Env) (w : World)
    (s : SyncStatus) (h : (m.doSync d env true w).1 = .returned (s, none)) :
    (m.Status d env w).1 = .returned s := by
  unfold master.Status
  rcases hx : m.doSync d env true w with ⟨o, w1⟩
  rw [hx] at h
  simp only at h
  subst h
  rfl

theorem tabletNode.Status_of_returned_tablet (r : tabletNode) (env : Env) (w : World)
    (h : (r.doSync env true w).1.2 = none) :
    (r.Status env w).1 = .returned (r.doSync env true w).1.1 := by
  unfold tabletNode.Status
  rcases hx : r.doSync env true w with ⟨⟨s, e⟩, w1⟩
  rw [hx] at h
  simp only at h
  subst h
  rfl

/-- C6: `Status` never hits its fatal branch.  Assuming `removePods(ctx, dry=true)` returns no
error, `master.doSync(dry=true)` and `tabletNode.doSync(dry=true)` return a status with a nil
error in every state, so `master.Status` and `tabletNode.Status` return that status and do
not panic. -/
theorem C6_status_never_panics (d : Deps) (m : master) (r : tabletNode) (env : Env) (w : World)
    (hProbe : env.removePodsErr true = none) :
    (∃ s, (m.doSync d env true w).1 = .returned (s, none) ∧
      (m.Status d env w).1 = .returned s) ∧
    (r.doSync env true w).1.2 = none ∧
    (r.Status env w).1 = .returned (r.doSync env true w).1.1 := by
  have hm : ∃ s, (m.doSync d env true w).1 = .returned (s, none) := by
    rw [master.doSync_eq]
    simp only [↓reduceIte, removePods_dry, hProbe]
    split_ifs
    · exact ⟨_, rfl⟩
    · exact ⟨_, rfl⟩
    · exact ⟨_, rfl⟩
    · exact ⟨_, rfl⟩
    · refine ⟨(m.initJob.Sync env true
        (w.logs (master.guardCalls w ++ [.NeedSync, .ArePodsReady]))).1.1, ?_⟩
      have h := (InitJob.Sync_dry m.initJob env
        (w.logs (master.guardCalls w ++ [.NeedSync, .ArePodsReady]))).1
      simp only [Outcome.returned.injEq]
      exact Prod.ext rfl h
  have hr : (r.doSync env true w).1.2 = none := by
    rw [tabletNode.doSync_eq_tablet]
    simp only [↓reduceIte, removePods_dry, hProbe]
    split_ifs <;> rfl
  obtain ⟨s, hs⟩ := hm
  exact ⟨⟨s, hs, master.Status_of_returned d m env w s hs⟩, hr,
    tabletNode.Status_of_returned_tablet r env w hr⟩

/-- Witness of C6 while the cluster waits for pod removal and every call succeeds: the tablet
node's `Status` returns `Updating`. -/
theorem C6_status_never_panics_witness :
    Env.allOk.removePodsErr true = none ∧
    ((NewTabletNode true).Status Env.allOk World.waitingForPodsRemoval).1
      = .returned ((NewTabletNode true).doSync Env.allOk true World.waitingForPodsRemoval).1.1 ∧
    ((NewTabletNode true).doSync Env.allOk true World.waitingForPodsRemoval).1.1
      = SyncStatusUpdating :=
  ⟨rfl, (C6_status_never_panics Deps.sample NewMaster (NewTabletNode true) Env.allOk
    World.waitingForPodsRemoval rfl).2.2, by decide⟩

/-- Counterexample to C7 as stated: at the master's Init Job with its completion recorded and
every call succeeding, `prepareRestart(dry=false)` succeeds, `isRestartPrepared()` is true,
the next `Sync(dry=false)` recreates the Task and returns `(Pending, nil)`, and when the Task
then completes `isRestartCompleted()` is still false. -/
theorem C7_counterexample :
    (NewMaster.initJob.prepareRestart Env.allOk false World.initDone).1 = none ∧
    (NewMaster.initJob.isRestartPrepared
      (NewMaster.initJob.afterPrepareRestart Env.allOk World.initDone)).1 = true ∧
    (NewMaster.initJob.Sync Env.allOk false
      (NewMaster.initJob.afterPrepareRestart Env.allOk World.initDone)).1
      = (SyncStatusPending, none) ∧
    (NewMaster.initJob.afterCompletion Env.allOk Env.allOk World.initDone).jobExists = true ∧
    (NewMaster.initJob.afterCompletion Env.allOk Env.allOk World.initDone).jobCompleted = true ∧
    (NewMaster.initJob.isRestartCompleted
      (NewMaster.initJob.afterCompletion Env.allOk Env.allOk World.initDone)).1 = false := by
  decide

theorem InitJob.isRestartPrepared_val (j : InitJob) (w : World) :
    (j.isRestartPrepared w).1 =
      (!w.jobExists &&
        decide (conditionValue w.conditions j.initCompletedCondition = ConditionFalse)) := by
  cases he : w.jobExists <;>
    simp [InitJob.isRestartPrepared, resources.Exists, IsStatusConditionFalse, he]

theorem InitJob.isRestartCompleted_val (j : InitJob) (w : World) :
    (j.isRestartCompleted w).1 =
      decide (conditionValue w.conditions j.initCompletedCondition = ConditionTrue) := by
  simp [InitJob.isRestartCompleted, IsStatusConditionTrue]

/-- A `prepareRestart(dry=false)` that returns no error leaves the Task absent and the
condition `False`. -/
theorem InitJob.prepareRestart_ok (j : InitJob) (env : Env) (w : World)
    (hPrep : (j.prepareRestart env false w).1 = none) :
    (j.prepareRestart env false w).2.jobExists = false ∧
    conditionValue (j.prepareRestart env false w).2.conditions j.initCompletedCondition
      = ConditionFalse := by
  have hF := conditionValue_setCondition w.conditions
    ⟨j.initCompletedCondition, ConditionFalse, "InitJobNeedRestart", "Init job needs restart"⟩
  simp only at hF
  revert hPrep
  cases he : w.jobExists <;> cases hd : env.deleteObjectErr <;>
    cases hs : env.setStatusConditionErr <;>
    simp [InitJob.prepareRestart, InitJob.removeIfExists, SetStatusCondition, DeleteObject,
      resources.Exists, World.log, he, hd, hs, hF]

/-- The NotStarted step of `InitJob.Sync(dry=false)`: the job is built (once), the create is
issued with the script the config map holds, and the create's error is returned; a successful
create leaves the Task present and not completed, a failed one changes nothing but the memo. -/
theorem InitJob.Sync_notStarted (j : InitJob) (env : Env) (w : World)
    (hc : conditionValue w.conditions j.initCompletedCondition ≠ ConditionTrue)
    (he : w.jobExists = false) :
    (j.Sync env false w).1 = (SyncStatusPending, env.resourcesSyncErr) ∧
    w.since (j.Sync env false w).2 =
      [.IsStatusConditionTrue j.initCompletedCondition, .Exists] ++
      (if w.builtJob then [] else [.JobBuild]) ++ [.ResourcesSync w.initScript] ∧
    (j.Sync env false w).2.conditions = w.conditions ∧
    (j.Sync env false w).2.initScript = w.initScript ∧
    (j.Sync env false w).2.builtJob = true ∧
    (j.Sync env false w).2.jobExists = env.resourcesSyncErr.isNone ∧
    (env.resourcesSyncErr = none →
      (j.Sync env false w).2.jobCompleted = false ∧
      (j.Sync env false w).2.storedConfigMap = some w.initScript) := by
  rw [InitJob.Sync_eq]
  cases hb : w.builtJob <;> cases hs : env.resourcesSyncErr <;>
    simp [hc, he, hb, hs, InitJob.Build, resources.Sync, World.log, World.logs, World.since]

/-- The Running step of `InitJob.Sync`: nothing but the three reads. -/
theorem InitJob.Sync_running (j : InitJob) (env : Env) (dry : Bool) (w : World)
    (hc : conditionValue w.conditions j.initCompletedCondition ≠ ConditionTrue)
    (he : w.jobExists = true) (hk : w.jobCompleted = false) :
    j.Sync env dry w = ((SyncStatusBlocked, none),
      w.logs [.IsStatusConditionTrue j.initCompletedCondition, .Exists, .Completed]) := by
  rw [InitJob.Sync_eq]
  simp [hc, he, hk]

/-- The Completed-unrecorded step of `InitJob.Sync(dry=false)`: the ledger write is issued and
its error returned; a successful write makes the condition `True`. -/
theorem InitJob.Sync_completed (j : InitJob) (env : Env) (w : World)
    (hc : conditionValue w.conditions j.initCompletedCondition ≠ ConditionTrue)
    (he : w.jobExists = true) (hk : w.jobCompleted = true) :
    (j.Sync env false w).1 = (SyncStatusPending, env.setStatusConditionErr) ∧
    w.since (j.Sync env false w).2 =
      [.IsStatusConditionTrue j.initCompletedCondition, .Exists, .Completed,
        .SetStatusCondition ⟨j.initCompletedCondition, ConditionTrue, "InitJobCompleted",
          "Init job successfully completed"⟩] ∧
    (j.Sync env false w).2.jobExists = true ∧
    (j.Sync env false w).2.jobCompleted = true ∧
    (env.setStatusConditionErr = none →
      conditionValue (j.Sync env false w).2.conditions j.initCompletedCondition
        = ConditionTrue) ∧
    (env.setStatusConditionErr ≠ none →
      (j.Sync env false w).2.conditions = w.conditions) := by
  have hT := conditionValue_setCondition w.conditions
    ⟨j.initCompletedCondition, ConditionTrue, "InitJobCompleted",
      "Init job successfully completed"⟩
  simp only at hT
  rw [InitJob.Sync_eq]
  cases hs : env.setStatusConditionErr <;>
    simp [hc, he, hk, hs, hT, SetStatusCondition, World.log, World.logs, World.since]

/-- C7 (amended): restart round-trip of the Init Job.  From any state, after
`prepareRestart(dry=false)` returns no error, the Task is absent, the condition is `False`,
`isRestartPrepared()` is true and `isRestartCompleted()` is false; the next `Sync(dry=false)`,
when its create succeeds, issues the create, returns `(Pending, nil)` and leaves the Task
present, after which `isRestartPrepared()` is false; when the Task completes
`isRestartPrepared()` stays false and `isRestartCompleted()` is still false; it becomes true
once a further `Sync(dry=false)` has recorded the completion in the ledger. -/
theorem C7_restart_round_trip (j : InitJob) (w : World) (e0 e1 e2 : Env)
    (hPrep : (j.prepareRestart e0 false w).1 = none)
    (hCreate : e1.resourcesSyncErr = none)
    (hLedger : e2.setStatusConditionErr = none) :
    ((j.afterPrepareRestart e0 w).jobExists = false ∧
      conditionValue (j.afterPrepareRestart e0 w).conditions j.initCompletedCondition
        = ConditionFalse ∧
      (j.isRestartPrepared (j.afterPrepareRestart e0 w)).1 = true ∧
      (j.isRestartCompleted (j.afterPrepareRestart e0 w)).1 = false) ∧
    ((j.Sync e1 false (j.afterPrepareRestart e0 w)).1 = (SyncStatusPending, none) ∧
      Call.ResourcesSync (j.afterPrepareRestart e0 w).initScript ∈
        (j.afterPrepareRestart e0 w).since (j.afterRecreate e0 e1 w) ∧
      (j.afterRecreate e0 e1 w).jobExists = true ∧
      (j.isRestartPrepared (j.afterRecreate e0 e1 w)).1 = false) ∧
    ((j.isRestartPrepared (j.afterCompletion e0 e1 w)).1 = false ∧
      (j.isRestartCompleted (j.afterCompletion e0 e1 w)).1 = false) ∧
    ((j.Sync e2 false (j.afterCompletion e0 e1 w)).1 = (SyncStatusPending, none) ∧
      (j.isRestartCompleted (j.afterRecord e0 e1 e2 w)).1 = true ∧
      (j.isRestartPrepared (j.afterRecord e0 e1 e2 w)).1 = false) := by
  obtain ⟨h1e, h1c⟩ := InitJob.prepareRestart_ok j e0 w hPrep
  have h1n : conditionValue (j.afterPrepareRestart e0 w).conditions
      j.initCompletedCondition ≠ ConditionTrue := by
    rw [InitJob.afterPrepareRestart, h1c]; decide
  obtain ⟨h2r, h2s, h2c, -, -, h2e, h2k⟩ :=
    InitJob.Sync_notStarted j e1 (j.afterPrepareRestart e0 w) h1n h1e
  have h3c : (j.afterCompletion e0 e1 w).conditions = (j.afterPrepareRestart e0 w).conditions :=
    h2c
  have h3e : (j.afterCompletion e0 e1 w).jobExists = true := by
    simp [InitJob.afterCompletion, InitJob.afterRecreate, taskCompletes, h2e, hCreate]
  have h3k : (j.afterCompletion e0 e1 w).jobCompleted = true := rfl
  have h3n : conditionValue (j.afterCompletion e0 e1 w).conditions
      j.initCompletedCondition ≠ ConditionTrue := by rw [h3c]; exact h1n
  obtain ⟨h4r, -, h4e, -, h4c, -⟩ :=
    InitJob.Sync_completed j e2 (j.afterCompletion e0 e1 w) h3n h3e h3k
  refine ⟨⟨h1e, h1c, ?_, ?_⟩, ⟨?_, ?_, ?_, ?_⟩, ⟨?_, ?_⟩, ?_, ?_, ?_⟩
  · rw [InitJob.isRestartPrepared_val, InitJob.afterPrepareRestart, h1e, h1c]; rfl
  · rw [InitJob.isRestartCompleted_val, InitJob.afterPrepareRestart, h1c]; rfl
  · rw [h2r, hCreate]
  · rw [InitJob.afterRecreate, h2s]; simp
  · rw [InitJob.afterRecreate, h2e, hCreate]; rfl
  · rw [InitJob.isRestartPrepared_val, InitJob.afterRecreate, h2e, hCreate]; rfl
  · rw [InitJob.isRestartPrepared_val, h3e]; rfl
  · rw [InitJob.isRestartCompleted_val, h3c]
    simpa [InitJob.afterPrepareRestart] using h1n
  · rw [h4r, hLedger]
  · rw [InitJob.isRestartCompleted_val, InitJob.afterRecord, h4c hLedger]; rfl
  · rw [InitJob.isRestartPrepared_val, InitJob.afterRecord, h4e]; rfl

/-- Witness of C7 at the master's Init Job with its completion recorded and every call
succeeding: after the round trip `isRestartCompleted()` is true again. -/
theorem C7_restart_round_trip_witness :
    (NewMaster.initJob.prepareRestart Env.allOk false World.initDone).1 = none ∧
    (NewMaster.initJob.isRestartCompleted
      (NewMaster.initJob.afterRecord Env.allOk Env.allOk Env.allOk World.initDone)).1 = true :=
  ⟨by decide, (C7_restart_round_trip NewMaster.initJob World.initDone Env.allOk Env.allOk
    Env.allOk (by decide) rfl rfl).2.2.2.2.1⟩

/-- C8: Init Job create-failure semantics.  In the NotStarted state with `dry=false`, when the
Resource Store create fails with error `e`, `InitJob.Sync` returns `(Pending, e)`, makes no
ledger write, leaves the conditions unchanged and the Task absent; the next `Sync(dry=false)`
takes the NotStarted branch again and issues the create again. -/
theorem C8_create_failure (j : InitJob) (env env1 : Env) (w : World) (e : GoError)
    (hc : conditionValue w.conditions j.initCompletedCondition ≠ ConditionTrue)
    (he : w.jobExists = false)
    (hErr : env.resourcesSyncErr = some e) :
    (j.Sync env false w).1 = (SyncStatusPending, some e) ∧
    (∀ c, Call.SetStatusCondition c ∉ w.since (j.Sync env false w).2) ∧
    (j.Sync env false w).2.conditions = w.conditions ∧
    (j.Sync env false w).2.jobExists = false ∧
    (j.Sync env1 false (j.Sync env false w).2).1 = (SyncStatusPending, env1.resourcesSyncErr) ∧
    (j.Sync env false w).2.since (j.Sync env1 false (j.Sync env false w).2).2 =
      [.IsStatusConditionTrue j.initCompletedCondition, .Exists,
        .ResourcesSync w.initScript] := by
  obtain ⟨h1r, h1s, h1c, h1i, h1b, h1e, -⟩ := InitJob.Sync_notStarted j env w hc he
  have h1e1 : (j.Sync env false w).2.jobExists = false := by rw [h1e, hErr]; rfl
  have h1n : conditionValue (j.Sync env false w).2.conditions j.initCompletedCondition
      ≠ ConditionTrue := by rw [h1c]; exact hc
  obtain ⟨h2r, h2s, -⟩ := InitJob.Sync_notStarted j env1 (j.Sync env false w).2 h1n h1e1
  refine ⟨by rw [h1r, hErr], ?_, h1c, h1e1, h2r, ?_⟩
  · intro c
    rw [h1s]
    cases w.builtJob <;> simp
  · rw [h2s, h1b, h1i]
    simp

/-- Witness of C8 at the master's Init Job in a fresh world with a failing create. -/
theorem C8_create_failure_witness :
    (NewMaster.initJob.Sync Env.createFails false World.fresh).1
      = (SyncStatusPending, some "create failed") ∧
    (NewMaster.initJob.Sync Env.createFails false World.fresh).2.jobExists = false :=
  ⟨(C8_create_failure NewMaster.initJob Env.createFails Env.allOk World.fresh "create failed"
      (by decide) rfl rfl).1,
    (C8_create_failure NewMaster.initJob Env.createFails Env.allOk World.fresh "create failed"
      (by decide) rfl rfl).2.2.2.1⟩

theorem removePods_since (env : Env) (dry : Bool) (w : World) (l : List Call) :
    w.since (removePods env dry (w.logs l)).2 = l ++ [.RemovePods dry] := by
  unfold removePods
  cases env.removePodsErr dry <;> cases dry <;> simp [World.since, World.log, World.logs]

theorem server.Sync_since (env : Env) (w : World) (l : List Call) :
    w.since (server.Sync env (w.logs l)).2 = l ++ [.ServerSync] := by
  unfold server.Sync
  cases env.serverSyncErr <;> simp [World.since, World.log, World.logs]

theorem tabletNode.readsToInitGuard_bundle (r : tabletNode) (w : World) :
    (tabletNode.guardCalls w).filter Call.bundleInitStep = [] ∧
    (r.readsToInitGuard w).filter Call.bundleInitStep = [] := by
  unfold tabletNode.readsToInitGuard tabletNode.guardCalls
  split_ifs <;> simp [Call.bundleInitStep]

/-- C9: storage-node ordering.  In every state in which the Cluster Client Component's
`Status` is not `Ready`, for both values of `dry` and every outcome of the collaborators,
`tabletNode.doSync` never calls `NodeExists`, `CreateObject` or `CreateTabletCells` and never
sets the bundles-init condition; and when moreover the cluster is not waiting for pod removal,
the server is in sync, the pods are ready, initialization is enabled and the bundles-init
condition is not `True`, it returns `(Blocked, nil)`. -/
theorem C9_storage_node_ordering (r : tabletNode) (env : Env) (dry : Bool) (w : World)
    (hClient : w.clientStatus ≠ SyncStatusReady) :
    (w.since (r.doSync env dry w).2).filter Call.bundleInitStep = [] ∧
    (¬ (w.clusterState = ClusterStateUpdating ∧
        w.updateState = UpdateStateWaitingForPodsRemoval) →
      w.isInSync = true → w.podsReady = true → r.doInitialization = true →
      conditionValue w.conditions r.initBundlesCondition ≠ ConditionTrue →
      (r.doSync env dry w).1 = (SyncStatusBlocked, none)) := by
  have hb := tabletNode.readsToInitGuard_bundle r w
  constructor
  · rw [tabletNode.doSync_eq_tablet]
    split_ifs
    all_goals
      simp [removePods_since, server.Sync_since, hb.1, hb.2, Call.bundleInitStep]
  · intro hg hs hp hd hc
    rw [tabletNode.doSync_eq_tablet]
    simp [hg, hs, hp, hd, hc, hClient]

/-- Witness of C9 with the Cluster Client Component pending and everything else ready: the
real pass of an initializing storage node is blocked. -/
theorem C9_storage_node_ordering_witness :
    World.clientPending.clientStatus ≠ SyncStatusReady ∧
    ((NewTabletNode true).doSync Env.allOk false World.clientPending).1
      = (SyncStatusBlocked, none) :=
  ⟨by decide, (C9_storage_node_ordering (NewTabletNode true) Env.allOk false
    World.clientPending (by decide)).2 (by decide) rfl rfl rfl (by decide)⟩

/-- The calls of one `InitJob.Sync` are appended to the log and are all calls of the Init
Job. -/
theorem InitJob.Sync_trace (j : InitJob) (env : Env) (dry : Bool) (w : World) :
    ∃ l, (j.Sync env dry w).2.trace = w.trace ++ l ∧ ∀ c ∈ l, c.ofInitJobSync = true := by
  rw [InitJob.Sync_eq]
  split_ifs
  · exact ⟨_, rfl, by simp [Call.ofInitJobSync]⟩
  · exact ⟨_, rfl, by simp [Call.ofInitJobSync]⟩
  · cases hb : w.builtJob <;> cases hs : env.resourcesSyncErr
    all_goals
      simp only [InitJob.Build, resources.Sync, World.log, World.logs, hb, hs,
        Bool.false_eq_true, if_false, if_true, List.append_assoc]
      exact ⟨_, rfl, by simp [Call.ofInitJobSync]⟩
  · exact ⟨_, rfl, by simp [Call.ofInitJobSync]⟩
  · exact ⟨_, rfl, by simp [Call.ofInitJobSync]⟩
  · cases hs : env.setStatusConditionErr
    all_goals
      simp only [SetStatusCondition, World.log, World.logs, hs, List.append_assoc]
      exact ⟨_, rfl, by simp [Call.ofInitJobSync]⟩

theorem master.guardCalls_noRemovePods (w : World) (dry : Bool) :
    Call.RemovePods dry ∉ master.guardCalls w := by
  unfold master.guardCalls
  split_ifs <;> simp

theorem InitJob.Sync_status_ne_updating (j : InitJob) (env : Env) (dry : Bool) (w : World) :
    (j.Sync env dry w).1.1 ≠ SyncStatusUpdating := by
  rw [InitJob.Sync_eq]
  split_ifs <;> simp

/-- Counterexample to C10 as stated: with the cluster updating, waiting for pod removal and
the set of locally updating components present and empty, `master.doSync(dry=false)` does not
return `Updating` and does not call `removePods`; it goes on to the Init Job, builds it and
returns `Pending`. -/
theorem C10_counterexample :
    World.waitingWithEmptySet.localUpdatingComponents = some [] ∧
    (NewMaster.doSync Deps.sample Env.allOk false World.waitingWithEmptySet).1
      = .returned (SyncStatusPending, none) ∧
    Call.RemovePods false ∉
      (NewMaster.doSync Deps.sample Env.allOk false World.waitingWithEmptySet).2.trace ∧
    Call.JobBuild ∈
      (NewMaster.doSync Deps.sample Env.allOk false World.waitingWithEmptySet).2.trace := by
  decide

/-- C10 (amended): master pod-removal step.  In every state in which the cluster state is
`Updating` and the update state is `WaitingForPodsRemoval`: when the set of locally updating
components is nil, `master.doSync` returns `Updating` together with the result of
`removePods(ctx, dry)` and makes no other call than the four reads and `removePods` (no
`server.Sync`, no Init Job action); when the set is present, even empty, the step does not
fire: `removePods` is not called and the status is not `Updating`. -/
theorem C10_master_pod_removal (d : Deps) (m : master) (env : Env) (dry : Bool) (w : World)
    (hU : w.clusterState = ClusterStateUpdating)
    (hW : w.updateState = UpdateStateWaitingForPodsRemoval) :
    (w.localUpdatingComponents = none →
      (m.doSync d env dry w).1 = .returned (SyncStatusUpdating,
        (removePods env dry (w.logs [.GetClusterState, .GetClusterState, .GetUpdateState,
          .GetLocalUpdatingComponents])).1) ∧
      (m.doSync d env dry w).2 =
        (removePods env dry (w.logs [.GetClusterState, .GetClusterState, .GetUpdateState,
          .GetLocalUpdatingComponents])).2 ∧
      w.since (m.doSync d env dry w).2 =
        [.GetClusterState, .GetClusterState, .GetUpdateState, .GetLocalUpdatingComponents,
          .RemovePods dry]) ∧
    (∀ l, w.localUpdatingComponents = some l →
      (m.doSync d env dry w).1.status? ≠ some SyncStatusUpdating ∧
      Call.RemovePods dry ∉ w.since (m.doSync d env dry w).2) := by
  have hR : w.clusterState ≠ ClusterStateRunning := by rw [hU]; decide
  constructor
  · intro hNil
    have hcalls : master.guardCalls w = [.GetClusterState, .GetClusterState, .GetUpdateState,
        .GetLocalUpdatingComponents] := by
      simp [master.guardCalls, hU, hW]
    rw [master.doSync_eq]
    simp only [hU, hW, hNil, reduceCtorEq, false_and, and_self, if_false, if_true, hcalls,
      true_and]
    rw [removePods_since]
    rfl
  · intro l hl
    have hg := master.guardCalls_noRemovePods w dry
    rw [master.doSync_eq]
    simp only [hR, hW, hl, false_and, and_false, reduceCtorEq, if_false]
    split_ifs
    · simp [Outcome.status?, hg]
    · simp [Outcome.status?, hg, server.Sync_since]
    · simp [Outcome.status?, hg]
    · obtain ⟨c, hc, hcall⟩ := InitJob.Sync_trace m.initJob env true
        (w.logs (master.guardCalls w ++ [.NeedSync, .ArePodsReady]))
      constructor
      · simp only [Outcome.status?, ne_eq, Option.some.injEq]
        exact InitJob.Sync_status_ne_updating _ _ _ _
      · rw [since_append w _ _ (by rw [hc, World.logs_trace, List.append_assoc])]
        simp only [List.mem_append, hg, false_or, List.mem_cons, reduceCtorEq,
          List.mem_singleton, List.not_mem_nil, or_false]
        intro h
        exact absurd (hcall _ h) (by simp [Call.ofInitJobSync])
    · cases hs : m.createInitScript d env with
      | error e => simp [Outcome.status?, hg]
      | ok script =>
        obtain ⟨c, hc, hcall⟩ := InitJob.Sync_trace m.initJob env false
          (m.initJob.SetInitScript script
            (w.logs (master.guardCalls w ++ [.NeedSync, .ArePodsReady])))
        constructor
        · simp only [Outcome.status?, ne_eq, Option.some.injEq]
          exact InitJob.Sync_status_ne_updating _ _ _ _
        · simp only
          rw [since_append w _ _ (by
            rw [hc, InitJob.SetInitScript, World.log, World.logs_trace, List.append_assoc,
              List.append_assoc])]
          simp only [List.mem_append, hg, false_or, List.mem_cons, reduceCtorEq,
            List.mem_singleton, List.not_mem_nil, or_false]
          intro h
          exact absurd (hcall _ h) (by simp [Call.ofInitJobSync])

/-- Witness of C10 with the cluster updating, waiting for pod removal and the set of locally
updating components nil: the real pass of the master makes the four reads and removes the
pods. -/
theorem C10_master_pod_removal_witness :
    World.waitingForPodsRemoval.clusterState = ClusterStateUpdating ∧
    World.waitingForPodsRemoval.updateState = UpdateStateWaitingForPodsRemoval ∧
    World.waitingForPodsRemoval.since
      (NewMaster.doSync Deps.sample Env.allOk false World.waitingForPodsRemoval).2 =
      [.GetClusterState, .GetClusterState, .GetUpdateState, .GetLocalUpdatingComponents,
        .RemovePods false] :=
  ⟨rfl, rfl, ((C10_master_pod_removal Deps.sample NewMaster Env.allOk false
    World.waitingForPodsRemoval rfl rfl).1 rfl).2.2⟩

theorem resources.Sync_err (env : Env) (w : World) :
    (resources.Sync env w).1 = env.resourcesSyncErr := by
  unfold resources.Sync
  cases env.resourcesSyncErr <;> rfl

theorem SetStatusCondition_fst (env : Env) (c : Condition) (w : World) :
    (SetStatusCondition env c w).1 = env.setStatusConditionErr := by
  unfold SetStatusCondition
  cases env.setStatusConditionErr <;> rfl

/-- The pair `InitJob.Sync` returns depends only on the completion condition, the presence
and completion of the Task, `dry` and the collaborators' outcomes. -/
theorem InitJob.Sync_pair_congr (j : InitJob) (env : Env) (dry : Bool) (w w1 : World)
    (hc : w.conditions = w1.conditions) (he : w.jobExists = w1.jobExists)
    (hk : w.jobCompleted = w1.jobCompleted) :
    (j.Sync env dry w).1 = (j.Sync env dry w1).1 := by
  rw [InitJob.Sync_eq, InitJob.Sync_eq, hc, he, hk]
  split_ifs <;> simp [resources.Sync_err, SetStatusCondition_fst]

/-- Counterexample to C11 as stated: with the cluster running, no update needed, the server
in sync, the pods ready and the Init Job done, step (5) of `master.doSync(dry=false)` does not
return the pair `(Ready, nil)` of `InitJob.Sync`: marshalling the extra medium fails and
`createInitScript` panics before `InitJob.Sync` is called. -/
theorem C11_counterexample :
    World.initDone.clusterState = ClusterStateRunning ∧
    World.initDone.needUpdate = false ∧ World.initDone.needSync = false ∧
    World.initDone.podsReady = true ∧
    (NewMaster.initJob.Sync Env.mediaFails false World.initDone).1 = (SyncStatusReady, none) ∧
    (NewMaster.doSync Deps.sample Env.mediaFails false World.initDone).1
      = .panicked "marshal failed" ∧
    (NewMaster.doSync Deps.sample Env.mediaFails false World.initDone).2.trace
      = [.GetClusterState, .NeedUpdate, .GetClusterState, .NeedSync, .ArePodsReady] := by
  decide

/-- C11 (amended): master decision order outside pod removal.  In every state in which the
pod-removal step does not apply, `master.doSync` returns the result of the first matching
step: (1) cluster `Running` and `NeedUpdate()` give `(NeedFullUpdate, nil)` after two reads
and no other call, for both values of `dry` and whatever `NeedSync()` is; (3) `NeedSync()`
gives `Pending`, with `server.Sync` called exactly when `dry=false` and its error returned;
(4) pods not ready give `(Blocked, nil)` with reads only; (5) otherwise, with `dry=true` the
result is exactly the pair of `InitJob.Sync(ctx, true)`, and with `dry=false` it is exactly
the pair of `InitJob.Sync(ctx, false)` called after `SetInitScript` when `createInitScript`
returns, and a panic with its error when `createInitScript` panics. -/
theorem C11_master_decision_order (d : Deps) (m : master) (env : Env) (dry : Bool) (w : World)
    (hNoRemoval : ¬ (w.clusterState = ClusterStateUpdating ∧
      w.updateState = UpdateStateWaitingForPodsRemoval ∧ w.localUpdatingComponents = none)) :
    (w.clusterState = ClusterStateRunning → w.needUpdate = true →
      m.doSync d env dry w =
        (.returned (SyncStatusNeedFullUpdate, none), w.logs [.GetClusterState, .NeedUpdate])) ∧
    (¬ (w.clusterState = ClusterStateRunning ∧ w.needUpdate = true) →
      (w.needSync = true →
        (m.doSync d env dry w).1 =
          .returned (SyncStatusPending, if dry then none else env.serverSyncErr) ∧
        w.since (m.doSync d env dry w).2 =
          master.guardCalls w ++ [.NeedSync] ++ (if dry then [] else [.ServerSync])) ∧
      (w.needSync = false → w.podsReady = false →
        m.doSync d env dry w = (.returned (SyncStatusBlocked, none),
          w.logs (master.guardCalls w ++ [.NeedSync, .ArePodsReady]))) ∧
      (w.needSync = false → w.podsReady = true →
        (dry = true →
          (m.doSync d env dry w).1 = .returned (m.initJob.Sync env true
            (w.logs (master.guardCalls w ++ [.NeedSync, .ArePodsReady]))).1) ∧
        (∀ script, dry = false → m.createInitScript d env = .ok script →
          (m.doSync d env dry w).1 = .returned (m.initJob.Sync env false
            (m.initJob.SetInitScript script
              (w.logs (master.guardCalls w ++ [.NeedSync, .ArePodsReady])))).1 ∧
          (m.initJob.Sync env false (m.initJob.SetInitScript script
              (w.logs (master.guardCalls w ++ [.NeedSync, .ArePodsReady])))).1 =
            (m.initJob.Sync env false
              (w.logs (master.guardCalls w ++ [.NeedSync, .ArePodsReady]))).1) ∧
        (∀ e, dry = false → m.createInitScript d env = .error e →
          m.doSync d env dry w =
            (.panicked e, w.logs (master.guardCalls w ++ [.NeedSync, .ArePodsReady]))))) := by
  refine ⟨?_, ?_⟩
  · intro hR hN
    rw [master.doSync_eq]
    simp [hR, hN]
  · intro h1
    refine ⟨?_, ?_, ?_⟩
    · intro hs
      rw [master.doSync_eq]
      simp only [h1, hNoRemoval, hs, if_false, if_true]
      cases dry
      · simp only [Bool.false_eq_true, if_false, server.Sync_since]
        refine ⟨?_, by simp⟩
        unfold server.Sync
        cases env.serverSyncErr <;> rfl
      · simp
    · intro hs hp
      rw [master.doSync_eq]
      simp [h1, hNoRemoval, hs, hp]
    · intro hs hp
      refine ⟨?_, ?_, ?_⟩
      · intro hd
        rw [master.doSync_eq]
        simp [h1, hNoRemoval, hs, hp, hd]
      · intro script hd hscript
        constructor
        · rw [master.doSync_eq]
          simp [h1, hNoRemoval, hs, hp, hd, hscript]
        · exact InitJob.Sync_pair_congr _ _ _ _ _ rfl rfl rfl
      · intro e hd he
        rw [master.doSync_eq]
        simp [h1, hNoRemoval, hs, hp, hd, he]

/-- Witness of C11 at a running cluster whose server needs a full update and a sync: the real
pass returns `(NeedFullUpdate, nil)` after the two reads. -/
theorem C11_master_decision_order_witness :
    ¬ (World.needsFullUpdate.clusterState = ClusterStateUpdating ∧
      World.needsFullUpdate.updateState = UpdateStateWaitingForPodsRemoval ∧
      World.needsFullUpdate.localUpdatingComponents = none) ∧
    World.needsFullUpdate.needSync = true ∧
    NewMaster.doSync Deps.sample Env.allOk false World.needsFullUpdate =
      (.returned (SyncStatusNeedFullUpdate, none),
        World.needsFullUpdate.logs [.GetClusterState, .NeedUpdate]) :=
  ⟨by decide, rfl,
    (C11_master_decision_order Deps.sample NewMaster Env.allOk false World.needsFullUpdate
      (by decide)).1 rfl rfl⟩

theorem removePods_fst (env : Env) (dry : Bool) (w : World) :
    (removePods env dry w).1 = env.removePodsErr dry := by
  unfold removePods
  cases env.removePodsErr dry <;> rfl

theorem server.Sync_fst (env : Env) (w : World) :
    (server.Sync env w).1 = env.serverSyncErr := by
  unfold server.Sync
  cases env.serverSyncErr <;> rfl

/-- C12: storage-node decision order, steps 1 to 4.  `tabletNode.doSync` returns the result of
the first matching step: (1) cluster `Updating` and update state `WaitingForPodsRemoval` give
`Updating` with the result of `removePods(ctx, dry)` after the two reads, whatever the
locally-updating set and every other observation are; (2) server not in sync gives `Pending`,
with `server.Sync` called exactly when `dry=false` and its error returned; (3) pods not ready
give `(Blocked, nil)`; (4) initialization disabled or bundles-init condition `True` gives
`(Ready, nil)` with reads only and without a call to the Cluster Client Component. -/
theorem C12_storage_node_decision_order (r : tabletNode) (env : Env) (dry : Bool) (w : World) :
    (w.clusterState = ClusterStateUpdating →
      w.updateState = UpdateStateWaitingForPodsRemoval →
      (r.doSync env dry w).1 = (SyncStatusUpdating, env.removePodsErr dry) ∧
      (r.doSync env dry w).2 =
        (removePods env dry (w.logs [.GetClusterState, .GetUpdateState])).2 ∧
      w.since (r.doSync env dry w).2 =
        [.GetClusterState, .GetUpdateState, .RemovePods dry]) ∧
    (¬ (w.clusterState = ClusterStateUpdating ∧
        w.updateState = UpdateStateWaitingForPodsRemoval) →
      (w.isInSync = false →
        (r.doSync env dry w).1 = (SyncStatusPending, if dry then none else env.serverSyncErr) ∧
        w.since (r.doSync env dry w).2 =
          tabletNode.guardCalls w ++ [.IsInSync] ++ (if dry then [] else [.ServerSync])) ∧
      (w.isInSync = true → w.podsReady = false →
        r.doSync env dry w = ((SyncStatusBlocked, none),
          w.logs (tabletNode.guardCalls w ++ [.IsInSync, .ArePodsReady]))) ∧
      (w.isInSync = true → w.podsReady = true →
        (r.doInitialization = false ∨
          conditionValue w.conditions r.initBundlesCondition = ConditionTrue) →
        r.doSync env dry w = ((SyncStatusReady, none), w.logs (r.readsToInitGuard w)) ∧
        Call.ClientStatus ∉ r.readsToInitGuard w ∧
        (r.readsToInitGuard w).filter Call.mutating = [])) := by
  refine ⟨?_, ?_⟩
  · intro hU hW
    have hcalls : tabletNode.guardCalls w = [.GetClusterState, .GetUpdateState] := by
      simp [tabletNode.guardCalls, hU]
    rw [tabletNode.doSync_eq_tablet]
    simp only [hU, hW, and_self, if_true, hcalls, removePods_fst, true_and]
    rw [removePods_since]
    rfl
  · intro hg
    refine ⟨?_, ?_, ?_⟩
    · intro hs
      rw [tabletNode.doSync_eq_tablet]
      simp only [hg, hs, if_false, if_true]
      cases dry
      · simp [server.Sync_since, server.Sync_fst]
      · simp
    · intro hs hp
      rw [tabletNode.doSync_eq_tablet]
      simp [hg, hs, hp]
    · intro hs hp ht
      refine ⟨?_, ?_, (tabletNode.readsToInitGuard_mutating r w).2⟩
      · rw [tabletNode.doSync_eq_tablet]
        simp [hg, hs, hp, ht]
      · unfold tabletNode.readsToInitGuard tabletNode.guardCalls
        split_ifs <;> simp

/-- Witness of C12 while the cluster waits for pod removal with another component still
updating, the server out of sync and the pods not ready: the storage node removes its pods. -/
theorem C12_storage_node_decision_order_witness :
    World.waitingWithOthers.localUpdatingComponents = some ["Master"] ∧
    World.waitingWithOthers.since
      ((NewTabletNode true).doSync Env.allOk false World.waitingWithOthers).2 =
      [.GetClusterState, .GetUpdateState, .RemovePods false] :=
  ⟨rfl, ((C12_storage_node_decision_order (NewTabletNode true) Env.allOk false
    World.waitingWithOthers).1 rfl rfl).2.2⟩

/-- The bundle-initialization block of the source against its description: same error, same
calls in the same order, conditions untouched unless every step succeeded. -/
theorem tabletNode.initBundles_spec (r : tabletNode) (env : Env) (w : World)
    (hd : r.doInitialization = true) :
    (r.initBundles env w).1 = (SyncStatusPending, bundleInitError env w.sysBundleExists) ∧
    (r.initBundles env w).2.trace = w.trace ++ bundleInitCalls r env w.sysBundleExists ∧
    (bundleInitSucceeded env w.sysBundleExists = false →
      (r.initBundles env w).2.conditions = w.conditions) ∧
    (bundleInitSucceeded env w.sysBundleExists = true → env.setStatusConditionErr = none →
      (r.initBundles env w).2.conditions = setCondition w.conditions r.initBundlesDone) := by
  cases h1 : env.nodeExistsErr <;> cases h2 : w.sysBundleExists <;>
    cases h3 : env.createObjectErr <;> cases h4 : env.createTabletCellsErr "default" <;>
    cases h5 : env.createTabletCellsErr "sys" <;> cases h6 : env.setStatusConditionErr <;>
    simp [tabletNode.initBundles, ytClient.NodeExists, ytClient.CreateObject,
      tabletNode.createTabletCellsLoop, CreateTabletCells, SetStatusCondition, World.log,
      bundleInitError, bundleInitCalls, bundleInitSucceeded, tabletNode.initBundlesDone,
      hd, h1, h2, h3, h4, h5, h6]

theorem bundleInitCalls_mem (r : tabletNode) (env : Env) (b : Bool) :
    (Call.CreateObject "sys" "sys" "sys" ∈ bundleInitCalls r env b ↔
      env.nodeExistsErr = none ∧ b = false) ∧
    (∀ c, Call.SetStatusCondition c ∈ bundleInitCalls r env b ↔
      bundleInitSucceeded env b = true ∧ c = r.initBundlesDone) ∧
    (bundleInitSucceeded env b = true →
      bundleInitError env b = env.setStatusConditionErr ∧
      bundleInitCalls r env b =
        [.NodeExists "//sys/tablet_cell_bundles/sys"] ++
        (if b then [] else [.CreateObject "sys" "sys" "sys"]) ++
        [.CreateTabletCells "default" 1, .CreateTabletCells "sys" 1,
          .SetStatusCondition r.initBundlesDone]) := by
  cases h1 : env.nodeExistsErr <;> cases b <;>
    cases h3 : env.createObjectErr <;> cases h4 : env.createTabletCellsErr "default" <;>
    cases h5 : env.createTabletCellsErr "sys" <;>
    simp [bundleInitCalls, bundleInitSucceeded, bundleInitError, h1, h3, h4, h5]

theorem tabletNode.readsToInitGuard_not_mem (r : tabletNode) (w : World) (c : Call)
    (hc : c.bundleInitStep = true) : c ∉ r.readsToInitGuard w := by
  intro h
  have := (tabletNode.readsToInitGuard_bundle r w).2
  have hmem : c ∈ (r.readsToInitGuard w).filter Call.bundleInitStep :=
    List.mem_filter.mpr ⟨h, hc⟩
  rw [this] at hmem
  exact absurd hmem (List.not_mem_nil _)

/-- C13: storage-node bundle initialization and partial failure.  In a `dry=false` pass that
reaches step 6 (not waiting for pod removal, server in sync, pods ready, initialization
enabled, condition not `True`, Cluster Client Component `Ready`), `tabletNode.doSync` makes,
after its reads, exactly the calls of the description `bundleInitCalls`: the probe,
`CreateObject` for `sys` exactly when the probe succeeded and reported it absent, then
`CreateTabletCells` with count 1 for `default` and then `sys`, and the ledger write of `True`
if and only if the probe, the optional creation and both cell-count steps all succeeded.  On
the first failing step it stops, returns `(Pending, that error)` and leaves the conditions
unchanged; on full success it returns `Pending` with the error of `SetStatusCondition`. -/
theorem C13_bundle_initialization (r : tabletNode) (env : Env) (w : World)
    (hg : ¬ (w.clusterState = ClusterStateUpdating ∧
      w.updateState = UpdateStateWaitingForPodsRemoval))
    (hs : w.isInSync = true) (hp : w.podsReady = true) (hd : r.doInitialization = true)
    (hc : conditionValue w.conditions r.initBundlesCondition ≠ ConditionTrue)
    (hcl : w.clientStatus = SyncStatusReady) :
    (r.doSync env false w).1 = (SyncStatusPending, bundleInitError env w.sysBundleExists) ∧
    w.since (r.doSync env false w).2 =
      r.readsToInitGuard w ++ [.ClientStatus, .GetYtClient] ++
        bundleInitCalls r env w.sysBundleExists ∧
    (Call.CreateObject "sys" "sys" "sys" ∈ w.since (r.doSync env false w).2 ↔
      env.nodeExistsErr = none ∧ w.sysBundleExists = false) ∧
    (∀ c, Call.SetStatusCondition c ∈ w.since (r.doSync env false w).2 ↔
      bundleInitSucceeded env w.sysBundleExists = true ∧ c = r.initBundlesDone) ∧
    (bundleInitSucceeded env w.sysBundleExists = false →
      (r.doSync env false w).2.conditions = w.conditions) ∧
    (bundleInitSucceeded env w.sysBundleExists = true →
      (r.doSync env false w).1 = (SyncStatusPending, env.setStatusConditionErr) ∧
      w.since (r.doSync env false w).2 =
        r.readsToInitGuard w ++ [.ClientStatus, .GetYtClient] ++
        ([.NodeExists "//sys/tablet_cell_bundles/sys"] ++
          (if w.sysBundleExists then [] else [.CreateObject "sys" "sys" "sys"]) ++
          [.CreateTabletCells "default" 1, .CreateTabletCells "sys" 1,
            .SetStatusCondition r.initBundlesDone])) := by
  have heq : r.doSync env false w =
      r.initBundles env (w.logs (r.readsToInitGuard w ++ [.ClientStatus, .GetYtClient])) := by
    rw [tabletNode.doSync_eq_tablet]
    simp [hg, hs, hp, hd, hc, hcl]
  obtain ⟨h1, h2, h3, -⟩ := tabletNode.initBundles_spec r env
    (w.logs (r.readsToInitGuard w ++ [.ClientStatus, .GetYtClient])) hd
  simp only [World.logs_sysBundleExists, World.logs_trace, World.logs_conditions] at h1 h2 h3
  obtain ⟨m1, m2, m3⟩ := bundleInitCalls_mem r env w.sysBundleExists
  have hsince : w.since (r.doSync env false w).2 =
      r.readsToInitGuard w ++ [.ClientStatus, .GetYtClient] ++
        bundleInitCalls r env w.sysBundleExists := by
    rw [heq]
    exact since_append w _ _ (by rw [h2, List.append_assoc])
  have hn1 := tabletNode.readsToInitGuard_not_mem r w (.CreateObject "sys" "sys" "sys") rfl
  refine ⟨by rw [heq, h1], hsince, ?_, ?_, ?_, ?_⟩
  · rw [hsince, ← m1]
    simp [hn1]
  · intro c
    have hn2 := tabletNode.readsToInitGuard_not_mem r w (.SetStatusCondition c) rfl
    rw [hsince, ← m2 c]
    simp [hn2]
  · intro hf
    rw [heq]
    exact h3 hf
  · intro ht
    obtain ⟨e1, e2⟩ := m3 ht
    exact ⟨by rw [heq, h1, e1], by rw [hsince, e2]⟩

/-- Witness of C13 at a fresh cluster where the cell-count step for `default` fails: the
bundle is created, the pass stops with that error and no condition is written. -/
theorem C13_bundle_initialization_witness :
    ((NewTabletNode true).doSync Env.defaultCellsFail false World.fresh).1
      = (SyncStatusPending, some "no cells") ∧
    ((NewTabletNode true).doSync Env.defaultCellsFail false World.fresh).2.conditions = [] ∧
    ((NewTabletNode true).doSync Env.defaultCellsFail false World.fresh).2.sysBundleExists
      = true :=
  ⟨(C13_bundle_initialization (NewTabletNode true) Env.defaultCellsFail World.fresh
      (by decide) rfl rfl rfl (by decide) rfl).1,
    (C13_bundle_initialization (NewTabletNode true) Env.defaultCellsFail World.fresh
      (by decide) rfl rfl rfl (by decide) rfl).2.2.2.2.1 (by decide),
    by decide⟩

/-- C14: default administrative credentials.  When `adminCredentials.Name` is empty,
`master.initAdminUser` joins the commands `createUserCommand` builds from exactly the default
login, the default password and, as token, the default password constant, none of which is
empty (given that the two constants are not); when the secret is present, each of login,
password and token is the secret's value under its key when the key is present and the
default of that field otherwise. -/
theorem C14_default_admin_credentials (d : Deps) (m : master)
    (hDefaults : d.defaultsNonEmpty = true) :
    (m.adminCredentials.Name = "" →
      m.initAdminUser d = String.intercalate "\n"
        (d.createUserCommand d.DefaultAdminLogin d.DefaultAdminPassword
          d.DefaultAdminPassword true) ∧
      d.DefaultAdminLogin ≠ "" ∧ d.DefaultAdminPassword ≠ "") ∧
    (m.adminCredentials.Name ≠ "" →
      m.initAdminUser d = String.intercalate "\n"
        (d.createUserCommand
          ((m.adminCredentials.Data.lookup d.AdminLoginSecret).getD d.DefaultAdminLogin)
          ((m.adminCredentials.Data.lookup d.AdminPasswordSecret).getD d.DefaultAdminPassword)
          ((m.adminCredentials.Data.lookup d.AdminTokenSecret).getD d.DefaultAdminPassword)
          true)) := by
  constructor
  · intro hName
    refine ⟨by simp [master.initAdminUser, hName], ?_⟩
    simpa [Deps.defaultsNonEmpty] using hDefaults
  · intro hName
    simp only [master.initAdminUser, bne_iff_ne, ne_eq, hName, not_false_eq_true, if_true]
    cases m.adminCredentials.Data.lookup d.AdminLoginSecret <;>
      cases m.adminCredentials.Data.lookup d.AdminPasswordSecret <;>
      cases m.adminCredentials.Data.lookup d.AdminTokenSecret <;> rfl

/-- Witness of C14 with sample constants: without a secret the commands are built from the
defaults; with a secret that holds only a login, the login comes from the secret and the
password and token are the defaults. -/
theorem C14_default_admin_credentials_witness :
    NewMaster.initAdminUser Deps.sample = "admin\npassword\npassword" ∧
    master.withLoginSecret.initAdminUser Deps.sample = "root\npassword\npassword" :=
  ⟨((C14_default_admin_credentials Deps.sample NewMaster (by decide)).1 rfl).1,
    (C14_default_admin_credentials Deps.sample master.withLoginSecret (by decide)).2
      (by decide)⟩

/-- A pass of `InitJob.Sync` that finds the condition `True`, or the Task present and not
completed, changes nothing but the log. -/
theorem InitJob.Sync_settled (j : InitJob) (env : Env) (dry : Bool) (w : World)
    (h : conditionValue w.conditions j.initCompletedCondition = ConditionTrue ∨
      (w.jobExists = true ∧ w.jobCompleted = false)) :
    (j.Sync env dry w).2.state = w.state ∧
    (w.since (j.Sync env dry w).2).filter Call.mutating = [] := by
  rw [InitJob.Sync_eq]
  rcases h with h | ⟨h1, h2⟩
  · simp [h, Call.mutating]
  · by_cases hc : conditionValue w.conditions j.initCompletedCondition = ConditionTrue
    · simp [hc, Call.mutating]
    · simp [hc, h1, h2, Call.mutating]

/-- After a `Sync(dry=false)` whose calls succeed, the Init Job is settled: the condition is
`True`, or the Task is present and not completed. -/
theorem InitJob.Sync_reaches_settled (j : InitJob) (env : Env) (w : World)
    (hCreate : env.resourcesSyncErr = none) (hLedger : env.setStatusConditionErr = none) :
    conditionValue (j.Sync env false w).2.conditions j.initCompletedCondition = ConditionTrue ∨
      ((j.Sync env false w).2.jobExists = true ∧ (j.Sync env false w).2.jobCompleted = false) := by
  by_cases hc : conditionValue w.conditions j.initCompletedCondition = ConditionTrue
  · left
    rw [InitJob.Sync_done j env false w hc]
    exact hc
  · cases he : w.jobExists
    · right
      obtain ⟨-, -, -, -, -, h1, h2⟩ := InitJob.Sync_notStarted j env w hc he
      exact ⟨by rw [h1, hCreate]; rfl, (h2 hCreate).1⟩
    · cases hk : w.jobCompleted
      · right
        rw [InitJob.Sync_running j env false w hc he hk]
        exact ⟨he, hk⟩
      · left
        exact (InitJob.Sync_completed j env w hc he hk).2.2.2.2.1 hLedger

/-- C15: idempotence of `InitJob.Sync`.  For every Init Job state, when the calls of the first
`Sync(dry=false)` succeed and nothing changes in between, a second `Sync(dry=false)` leaves
the whole state (Task presence and completion, conditions, config artifact, memoized job) as
the first one left it and issues no mutating call. -/
theorem C15_initJob_sync_idempotent (j : InitJob) (e1 e2 : Env) (w : World)
    (hCreate : e1.resourcesSyncErr = none) (hLedger : e1.setStatusConditionErr = none) :
    (j.Sync e2 false (j.Sync e1 false w).2).2.state = (j.Sync e1 false w).2.state ∧
    (j.Sync e2 false (j.Sync e1 false w).2).2.jobExists = (j.Sync e1 false w).2.jobExists ∧
    (j.Sync e2 false (j.Sync e1 false w).2).2.conditions = (j.Sync e1 false w).2.conditions ∧
    (j.Sync e2 false (j.Sync e1 false w).2).2.storedConfigMap
      = (j.Sync e1 false w).2.storedConfigMap ∧
    ((j.Sync e1 false w).2.since (j.Sync e2 false (j.Sync e1 false w).2).2).filter
      Call.mutating = [] := by
  obtain ⟨h1, h2⟩ := InitJob.Sync_settled j e2 false (j.Sync e1 false w).2
    (InitJob.Sync_reaches_settled j e1 w hCreate hLedger)
  have hf : ∀ a b : World, a.state = b.state →
      a.jobExists = b.jobExists ∧ a.conditions = b.conditions ∧
      a.storedConfigMap = b.storedConfigMap := by
    intro a b hab
    simp only [World.state, World.mk.injEq] at hab
    exact ⟨hab.2.1, hab.1, hab.2.2.2.1⟩
  obtain ⟨f1, f2, f3⟩ := hf _ _ h1
  exact ⟨h1, f1, f2, f3, h2⟩

/-- Witness of C15 at the master's Init Job: from a fresh world two real passes leave the
Task created and not yet recorded, exactly as one pass does. -/
theorem C15_initJob_sync_idempotent_witness :
    (NewMaster.initJob.Sync Env.allOk false
      (NewMaster.initJob.Sync Env.allOk false World.fresh).2).2.state
      = (NewMaster.initJob.Sync Env.allOk false World.fresh).2.state ∧
    (NewMaster.initJob.Sync Env.allOk false World.fresh).2.jobExists = true :=
  ⟨(C15_initJob_sync_idempotent NewMaster.initJob Env.allOk Env.allOk World.fresh rfl rfl).1,
    by decide⟩

/-- Counterexample to C16 as stated: at a fresh cluster whose server is out of sync while the
pods are ready, with every call succeeding, one `tabletNode.Sync` only syncs the server, while
two in a row also create the `sys` bundle and set the bundles-init condition; likewise one
`master.Sync` only syncs the server, while two in a row also create the Init Job's Task. -/
theorem C16_counterexample :
    ((NewTabletNode true).Sync Env.allOk World.outOfSync).2.isInSync = true ∧
    ((NewTabletNode true).Sync Env.allOk World.outOfSync).2.sysBundleExists = false ∧
    ((NewTabletNode true).Sync Env.allOk World.outOfSync).2.conditions = [] ∧
    ((NewTabletNode true).Sync Env.allOk
      ((NewTabletNode true).Sync Env.allOk World.outOfSync).2).2.sysBundleExists = true ∧
    conditionValue ((NewTabletNode true).Sync Env.allOk
      ((NewTabletNode true).Sync Env.allOk World.outOfSync).2).2.conditions
      (NewTabletNode true).initBundlesCondition = ConditionTrue ∧
    (NewMaster.Sync Deps.sample Env.allOk World.outOfSync).2.needSync = false ∧
    (NewMaster.Sync Deps.sample Env.allOk World.outOfSync).2.jobExists = false ∧
    (NewMaster.Sync Deps.sample Env.allOk
      (NewMaster.Sync Deps.sample Env.allOk World.outOfSync).2).2.jobExists = true := by
  decide

theorem removePods_ok (env : Env) (w : World) (h : env.removePodsErr false = none) :
    (removePods env false w).2 = { w.log (.RemovePods false) with podsReady := false } := by
  simp [removePods, h]

theorem server.Sync_ok (env : Env) (w : World) (h : env.serverSyncErr = none) :
    (server.Sync env w).2 = { w.log .ServerSync with needSync := false, isInSync := true } := by
  simp [server.Sync, h]

/-- A pass of `tabletNode.doSync` over a state that is in sync and calls for no action changes
nothing but the log. -/
theorem tabletNode.doSync_settled (r : tabletNode) (env : Env) (dry : Bool) (w : World)
    (hg : ¬ (w.clusterState = ClusterStateUpdating ∧
      w.updateState = UpdateStateWaitingForPodsRemoval))
    (hs : w.isInSync = true)
    (h : w.podsReady = false ∨ r.doInitialization = false ∨
      conditionValue w.conditions r.initBundlesCondition = ConditionTrue ∨
      w.clientStatus ≠ SyncStatusReady) :
    (r.doSync env dry w).2.state = w.state := by
  rw [tabletNode.doSync_eq_tablet]
  simp only [hg, hs, if_false, Bool.true_eq_false]
  by_cases hp : w.podsReady = false
  · simp [hp]
  · simp only [hp, if_false]
    by_cases ht : r.doInitialization = false ∨
        conditionValue w.conditions r.initBundlesCondition = ConditionTrue
    · simp [ht]
    · simp only [ht, if_false]
      have hcl : w.clientStatus ≠ SyncStatusReady := by
        rcases h with h | h | h | h
        · exact absurd h hp
        · exact absurd (Or.inl h) ht
        · exact absurd (Or.inr h) ht
        · exact h
      simp [hcl]

/-- The bundle-initialization block touches neither the cluster-level state nor the server
observations nor the Cluster Client Component. -/
theorem tabletNode.initBundles_frame (r : tabletNode) (env : Env) (w : World) :
    (r.initBundles env w).2.clusterState = w.clusterState ∧
    (r.initBundles env w).2.updateState = w.updateState ∧
    (r.initBundles env w).2.isInSync = w.isInSync ∧
    (r.initBundles env w).2.podsReady = w.podsReady := by
  cases hd : r.doInitialization <;>
    cases h1 : env.nodeExistsErr <;> cases h2 : w.sysBundleExists <;>
    cases h3 : env.createObjectErr <;> cases h4 : env.createTabletCellsErr "default" <;>
    cases h5 : env.createTabletCellsErr "sys" <;> cases h6 : env.setStatusConditionErr <;>
    simp [tabletNode.initBundles, ytClient.NodeExists, ytClient.CreateObject,
      tabletNode.createTabletCellsLoop, CreateTabletCells, SetStatusCondition, World.log,
      hd, h1, h2, h3, h4, h5, h6]

/-- Two real passes of `tabletNode.doSync` with every call succeeding leave the state the
first pass left, unless the first pass synced the server and the second goes on to bundle
initialization. -/
theorem tabletNode.doSync_twice_tablet (r : tabletNode) (env : Env) (w : World)
    (hSync : env.serverSyncErr = none) (hRemove : env.removePodsErr false = none)
    (hBundles : bundleInitSucceeded env w.sysBundleExists = true)
    (hLedger : env.setStatusConditionErr = none)
    (hNot : ¬ r.syncsThenInitializes w) :
    (r.doSync env false (r.doSync env false w).2).2.state = (r.doSync env false w).2.state := by
  by_cases hg : w.clusterState = ClusterStateUpdating ∧
      w.updateState = UpdateStateWaitingForPodsRemoval
  · have hfirst : (r.doSync env false w).2 =
        { (w.logs (tabletNode.guardCalls w)).log (.RemovePods false) with
          podsReady := false } := by
      rw [tabletNode.doSync_eq_tablet]
      simp only [hg, and_self, if_true, removePods_ok _ _ hRemove]
    rw [hfirst, tabletNode.doSync_eq_tablet]
    simp only [World.log, World.logs, hg, and_self, if_true, removePods_ok _ _ hRemove,
      World.state]
  · by_cases hs : w.isInSync = false
    · have hfirst : (r.doSync env false w).2 =
          { (w.logs (tabletNode.guardCalls w ++ [.IsInSync])).log .ServerSync with
            needSync := false, isInSync := true } := by
        rw [tabletNode.doSync_eq_tablet]
        simp only [hg, hs, if_false, if_true, Bool.false_eq_true, server.Sync_ok _ _ hSync]
      rw [hfirst]
      apply tabletNode.doSync_settled
      · exact hg
      · rfl
      · simp only [World.log, World.logs]
        by_contra hcon
        simp only [not_or, ne_eq, not_not] at hcon
        apply hNot
        refine ⟨hg, hs, ?_, ?_, hcon.2.2.1, hcon.2.2.2⟩
        · cases h : w.podsReady
          · exact absurd h hcon.1
          · rfl
        · cases h : r.doInitialization
          · exact absurd h hcon.2.1
          · rfl
    · have hs1 : w.isInSync = true := by
        cases h : w.isInSync
        · exact absurd h hs
        · rfl
      by_cases hsettled : w.podsReady = false ∨ r.doInitialization = false ∨
          conditionValue w.conditions r.initBundlesCondition = ConditionTrue ∨
          w.clientStatus ≠ SyncStatusReady
      · have hfirst : ∃ l, (r.doSync env false w).2 = w.logs l := by
          rw [tabletNode.doSync_eq_tablet]
          simp only [hg, hs1, ↓reduceIte, Bool.true_eq_false, Bool.false_eq_true]
          split_ifs with h1 h2 h3
          · exact ⟨_, rfl⟩
          · exact ⟨_, rfl⟩
          · exact ⟨_, rfl⟩
          · exfalso
            rcases hsettled with h | h | h | h
            · exact h1 h
            · exact h2 (Or.inl h)
            · exact h2 (Or.inr h)
            · exact h3 h
        obtain ⟨l, hl⟩ := hfirst
        rw [hl]
        exact tabletNode.doSync_settled r env false (w.logs l) hg hs1 hsettled
      · simp only [not_or, ne_eq, not_not] at hsettled
        obtain ⟨hp, hd, hc, hcl⟩ := hsettled
        have hp1 : w.podsReady = true := by
          cases h : w.podsReady
          · exact absurd h hp
          · rfl
        have hd1 : r.doInitialization = true := by
          cases h : r.doInitialization
          · exact absurd h hd
          · rfl
        have hfirst : (r.doSync env false w).2 = (r.initBundles env
            (w.logs (r.readsToInitGuard w ++ [.ClientStatus, .GetYtClient]))).2 := by
          rw [tabletNode.doSync_eq_tablet]
          simp [hg, hs1, hp1, hd1, hc, hcl]
        obtain ⟨f1, f2, f3, f4⟩ := tabletNode.initBundles_frame r env
          (w.logs (r.readsToInitGuard w ++ [.ClientStatus, .GetYtClient]))
        obtain ⟨-, -, -, hcond⟩ := tabletNode.initBundles_spec r env
          (w.logs (r.readsToInitGuard w ++ [.ClientStatus, .GetYtClient])) hd1
        rw [hfirst]
        apply tabletNode.doSync_settled
        · rw [f1, f2]; exact hg
        · rw [f3]; exact hs1
        · right; right; left
          rw [hcond hBundles hLedger]
          exact conditionValue_setCondition _ r.initBundlesDone

/-- `InitJob.Sync` touches neither the cluster-level state, nor the server observations, nor
the script held by the built config map. -/
theorem InitJob.Sync_frame (j : InitJob) (env : Env) (dry : Bool) (w : World) :
    (j.Sync env dry w).2.clusterState = w.clusterState ∧
    (j.Sync env dry w).2.updateState = w.updateState ∧
    (j.Sync env dry w).2.localUpdatingComponents = w.localUpdatingComponents ∧
    (j.Sync env dry w).2.needUpdate = w.needUpdate ∧
    (j.Sync env dry w).2.needSync = w.needSync ∧
    (j.Sync env dry w).2.podsReady = w.podsReady ∧
    (j.Sync env dry w).2.initScript = w.initScript := by
  rw [InitJob.Sync_eq]
  cases hb : w.builtJob <;> cases h1 : env.resourcesSyncErr <;>
    cases h2 : env.setStatusConditionErr <;> split_ifs <;>
    simp [InitJob.Build, resources.Sync, SetStatusCondition, World.log, hb, h1, h2]

/-- Two real passes of `master.doSync` with every call succeeding leave the state the first
pass left, unless the first pass synced the server while the pods were ready. -/
theorem master.doSync_twice (d : Deps) (m : master) (env : Env) (w : World) (script : String)
    (hSync : env.serverSyncErr = none) (hRemove : env.removePodsErr false = none)
    (hCreate : env.resourcesSyncErr = none) (hLedger : env.setStatusConditionErr = none)
    (hScript : m.createInitScript d env = .ok script)
    (hNot : ¬ master.syncsThenInitializes w) :
    (m.doSync d env false (m.doSync d env false w).2).2.state
      = (m.doSync d env false w).2.state := by
  by_cases h1 : w.clusterState = ClusterStateRunning ∧ w.needUpdate = true
  · have hfirst : (m.doSync d env false w).2 = w.logs [.GetClusterState, .NeedUpdate] := by
      rw [master.doSync_eq]
      simp only [h1, and_self, if_true]
    rw [hfirst, master.doSync_eq]
    simp [h1]
  · by_cases h2 : w.clusterState = ClusterStateUpdating ∧
        w.updateState = UpdateStateWaitingForPodsRemoval ∧ w.localUpdatingComponents = none
    · have hfirst : (m.doSync d env false w).2 =
          { (w.logs (master.guardCalls w)).log (.RemovePods false) with
            podsReady := false } := by
        rw [master.doSync_eq, if_neg h1, if_pos h2, removePods_ok _ _ hRemove]
      rw [hfirst, master.doSync_eq]
      simp only [World.log, World.logs, h2, reduceCtorEq, false_and, and_self, if_true,
        if_false, removePods_ok _ _ hRemove, World.state]
    · cases hs : w.needSync
      · cases hp : w.podsReady
        · have hfirst : (m.doSync d env false w).2 =
              w.logs (master.guardCalls w ++ [.NeedSync, .ArePodsReady]) := by
            rw [master.doSync_eq]
            simp [h1, h2, hs, hp]
          rw [hfirst, master.doSync_eq]
          simp [h1, h2, hs, hp]
        · have hfirst : (m.doSync d env false w).2 =
              (m.initJob.Sync env false (m.initJob.SetInitScript script
                (w.logs (master.guardCalls w ++ [.NeedSync, .ArePodsReady])))).2 := by
            rw [master.doSync_eq]
            simp [h1, h2, hs, hp, hScript]
          obtain ⟨f1, f2, f3, f4, f5, f6, f7⟩ := InitJob.Sync_frame m.initJob env false
            (m.initJob.SetInitScript script
              (w.logs (master.guardCalls w ++ [.NeedSync, .ArePodsReady])))
          have hsettled := InitJob.Sync_reaches_settled m.initJob env
            (m.initJob.SetInitScript script
              (w.logs (master.guardCalls w ++ [.NeedSync, .ArePodsReady]))) hCreate hLedger
          rw [← hfirst] at f1 f2 f3 f4 f5 f6 f7 hsettled
          simp only [InitJob.SetInitScript, World.log, World.logs] at f1 f2 f3 f4 f5 f6 f7
          have h1' : ¬ ((m.doSync d env false w).2.clusterState = ClusterStateRunning ∧
              (m.doSync d env false w).2.needUpdate = true) := by rw [f1, f4]; exact h1
          have h2' : ¬ ((m.doSync d env false w).2.clusterState = ClusterStateUpdating ∧
              (m.doSync d env false w).2.updateState = UpdateStateWaitingForPodsRemoval ∧
              (m.doSync d env false w).2.localUpdatingComponents = none) := by
            rw [f1, f2, f3]; exact h2
          generalize m.doSync d env false w = F at *
          rw [master.doSync_eq]
          simp only [h1', h2', f5, f6, hs, hp, hScript, if_false, Bool.false_eq_true,
            Bool.true_eq_false]
          have hX := (InitJob.Sync_settled m.initJob env false
            (m.initJob.SetInitScript script
              (F.2.logs (master.guardCalls F.2 ++ [.NeedSync, .ArePodsReady])))
            (by simpa [InitJob.SetInitScript, World.log, World.logs] using hsettled)).1
          rw [hX]
          simp [InitJob.SetInitScript, World.log, World.logs, World.state, f7]
      · have hp : w.podsReady = false := by
          cases h : w.podsReady
          · rfl
          · exact absurd ⟨h1, h2, hs, h⟩ hNot
        have hfirst : (m.doSync d env false w).2 =
            { (w.logs (master.guardCalls w ++ [.NeedSync])).log .ServerSync with
              needSync := false, isInSync := true } := by
          rw [master.doSync_eq]
          simp only [h1, h2, hs, if_false, if_true, Bool.false_eq_true,
            server.Sync_ok _ _ hSync]
        rw [hfirst, master.doSync_eq]
        simp [World.log, World.logs, h1, h2, hp, World.state]

theorem master.Sync_world (d : Deps) (m : master) (env : Env) (w : World) :
    (m.Sync d env w).2 = (m.doSync d env false w).2 := by
  unfold master.Sync
  split <;> simp_all

theorem World.observable_of_state (a b : World) (h : a.state = b.state) :
    a.observable = b.observable := by
  simp only [World.state, World.mk.injEq] at h
  simp only [World.observable, World.mk.injEq]
  simp [h]

/-- When the first real pass of `master.doSync` syncs the server while the pods are ready, the
second pass runs the Init Job step on the state the first pass left. -/
theorem master.doSync_after_sync (d : Deps) (m : master) (env : Env) (w : World)
    (script : String) (hSync : env.serverSyncErr = none)
    (hScript : m.createInitScript d env = .ok script)
    (hInit : master.syncsThenInitializes w) :
    ∃ x : World,
      (m.doSync d env false (m.doSync d env false w).2).2 = (m.initJob.Sync env false x).2 ∧
      x.observable = (m.doSync d env false w).2.observable ∧
      x.conditions = w.conditions ∧ x.jobExists = w.jobExists ∧
      x.jobCompleted = w.jobCompleted := by
  obtain ⟨h1, h2, hs, hp⟩ := hInit
  have hfirst : (m.doSync d env false w).2 =
      { (w.logs (master.guardCalls w ++ [.NeedSync])).log .ServerSync with
        needSync := false, isInSync := true } := by
    rw [master.doSync_eq]
    simp only [h1, h2, hs, if_false, if_true, Bool.false_eq_true, server.Sync_ok _ _ hSync]
  rw [hfirst, master.doSync_eq]
  simp only [World.log, World.logs, h1, h2, hp, hScript, if_false, Bool.false_eq_true,
    Bool.true_eq_false]
  exact ⟨_, rfl, by simp [InitJob.SetInitScript, World.log, World.logs, World.observable],
    rfl, rfl, rfl⟩

/-- Two real passes of `master.doSync` with every call succeeding leave the observable state
the first pass left exactly when the first pass is not a server sync followed by an acting
Init Job step. -/
theorem master.doSync_twice_observable (d : Deps) (m : master) (env : Env) (w : World)
    (script : String)
    (hSync : env.serverSyncErr = none) (hRemove : env.removePodsErr false = none)
    (hCreate : env.resourcesSyncErr = none) (hLedger : env.setStatusConditionErr = none)
    (hScript : m.createInitScript d env = .ok script) :
    (m.doSync d env false (m.doSync d env false w).2).2.observable
        = (m.doSync d env false w).2.observable ↔ ¬ m.syncsThenActs w := by
  by_cases hInit : master.syncsThenInitializes w
  · obtain ⟨x, hx, hobs, hxc, hxe, hxk⟩ :=
      master.doSync_after_sync d m env w script hSync hScript hInit
    rw [hx, ← hobs]
    by_cases hc : conditionValue w.conditions m.initJob.initCompletedCondition = ConditionTrue
    · have hset :=
        (InitJob.Sync_settled m.initJob env false x (Or.inl (by rw [hxc]; exact hc))).1
      exact ⟨fun _ h => h.2.1 hc, fun _ => World.observable_of_state _ _ hset⟩
    · have hxn : conditionValue x.conditions m.initJob.initCompletedCondition
          ≠ ConditionTrue := by
        rw [hxc]; exact hc
      cases he : w.jobExists
      · have hact : m.syncsThenActs w := ⟨hInit, hc, Or.inl he⟩
        have hje := (InitJob.Sync_notStarted m.initJob env x hxn
          (by rw [hxe]; exact he)).2.2.2.2.2.1
        constructor
        · intro heq
          exfalso
          have h1 : (m.initJob.Sync env false x).2.jobExists = x.jobExists := by
            have := congrArg World.jobExists heq
            simpa [World.observable] using this
          rw [hje, hCreate, hxe, he] at h1
          exact absurd h1 (by decide)
        · intro hn
          exact absurd hact hn
      · cases hk : w.jobCompleted
        · have hset := (InitJob.Sync_settled m.initJob env false x
            (Or.inr ⟨by rw [hxe]; exact he, by rw [hxk]; exact hk⟩)).1
          refine ⟨fun _ h => ?_, fun _ => World.observable_of_state _ _ hset⟩
          rcases h.2.2 with h3 | h3
          · rw [he] at h3; exact absurd h3 (by decide)
          · rw [hk] at h3; exact absurd h3 (by decide)
        · have hact : m.syncsThenActs w := ⟨hInit, hc, Or.inr hk⟩
          have hcv := (InitJob.Sync_completed m.initJob env x hxn (by rw [hxe]; exact he)
            (by rw [hxk]; exact hk)).2.2.2.2.1 hLedger
          constructor
          · intro heq
            exfalso
            have h1 : (m.initJob.Sync env false x).2.conditions = x.conditions := by
              have := congrArg World.conditions heq
              simpa [World.observable] using this
            rw [h1] at hcv
            exact hxn hcv
          · intro hn
            exact absurd hact hn
  · have hstate := master.doSync_twice d m env w script hSync hRemove hCreate hLedger hScript
      hInit
    exact ⟨fun _ h => hInit h.1, fun _ => World.observable_of_state _ _ hstate⟩

/-- When the first real pass of `tabletNode.doSync` syncs the server and the second goes on to
bundle initialization, the first pass leaves the conditions as they were and the second sets
the bundles-init condition. -/
theorem tabletNode.doSync_twice_differs (r : tabletNode) (env : Env) (w : World)
    (hSync : env.serverSyncErr = none)
    (hBundles : bundleInitSucceeded env w.sysBundleExists = true)
    (hLedger : env.setStatusConditionErr = none)
    (hInit : r.syncsThenInitializes w) :
    (r.doSync env false w).2.conditions = w.conditions ∧
    conditionValue (r.doSync env false (r.doSync env false w).2).2.conditions
      r.initBundlesCondition = ConditionTrue := by
  obtain ⟨hg, hs, hp, hd, hc, hcl⟩ := hInit
  have hfirst : (r.doSync env false w).2 =
      { (w.logs (tabletNode.guardCalls w ++ [.IsInSync])).log .ServerSync with
        needSync := false, isInSync := true } := by
    rw [tabletNode.doSync_eq_tablet]
    simp only [hg, hs, if_false, if_true, Bool.false_eq_true, server.Sync_ok _ _ hSync]
  have hsecond : ∃ x : World,
      (r.doSync env false (r.doSync env false w).2).2 = (r.initBundles env x).2 ∧
      x.conditions = w.conditions ∧ x.sysBundleExists = w.sysBundleExists := by
    rw [hfirst, tabletNode.doSync_eq_tablet]
    simp only [World.log, World.logs, hg, hp, hd, hc, hcl, if_false, Bool.false_eq_true,
      Bool.true_eq_false, false_or, ne_eq, not_true_eq_false]
    exact ⟨_, rfl, rfl, rfl⟩
  obtain ⟨x, hx, hxc, hxb⟩ := hsecond
  refine ⟨by rw [hfirst]; rfl, ?_⟩
  obtain ⟨-, -, -, hcond⟩ := tabletNode.initBundles_spec r env x hd
  rw [hx, hcond (by rw [hxb]; exact hBundles) hLedger]
  exact conditionValue_setCondition _ r.initBundlesDone

/-- Two real passes of `tabletNode.doSync` with every call succeeding leave the observable
state the first pass left exactly when the first pass is not a server sync followed by bundle
initialization. -/
theorem tabletNode.doSync_twice_observable_tablet (r : tabletNode) (env : Env) (w : World)
    (hSync : env.serverSyncErr = none) (hRemove : env.removePodsErr false = none)
    (hBundles : bundleInitSucceeded env w.sysBundleExists = true)
    (hLedger : env.setStatusConditionErr = none) :
    (r.doSync env false (r.doSync env false w).2).2.observable
        = (r.doSync env false w).2.observable ↔ ¬ r.syncsThenInitializes w := by
  constructor
  · intro heq hInit
    obtain ⟨h1, h2⟩ := tabletNode.doSync_twice_differs r env w hSync hBundles hLedger hInit
    have h3 : (r.doSync env false (r.doSync env false w).2).2.conditions
        = (r.doSync env false w).2.conditions := by
      have := congrArg World.conditions heq
      simpa [World.observable] using this
    rw [h3, h1] at h2
    exact hInit.2.2.2.2.1 h2
  · intro hNot
    exact World.observable_of_state _ _
      (tabletNode.doSync_twice_tablet r env w hSync hRemove hBundles hLedger hNot)

/-- C16 (amended): idempotence of component `Sync`.  With every collaborator call succeeding
and nothing changing in between, two `master.Sync` in a row leave the same observable state
(server sync state, pods, Init Job Task and stored config, condition values, bundles and
cells, cluster-level state) as one, except exactly when the first takes the server-sync step
while the pods are ready and the Init Job is NotStarted or Completed-unrecorded; and two
`tabletNode.Sync` in a row leave the same observable state as one, except exactly when the
first takes the server-sync step while the pods are ready, initialization is enabled, the
bundles-init condition is not `True` and the Cluster Client Component is `Ready`.  Outside
the server-sync step with ready pods for the master, and outside its exception for the
storage node, the whole state, in-memory fields included, is the same. -/
theorem C16_component_sync_idempotent (d : Deps) (m : master) (r : tabletNode) (env : Env)
    (w : World) (script : String)
    (hSync : env.serverSyncErr = none) (hRemove : env.removePodsErr false = none)
    (hCreate : env.resourcesSyncErr = none) (hLedger : env.setStatusConditionErr = none)
    (hScript : m.createInitScript d env = .ok script)
    (hNode : env.nodeExistsErr = none) (hObject : env.createObjectErr = none)
    (hCells : ∀ bundle, env.createTabletCellsErr bundle = none) :
    ((m.Sync d env (m.Sync d env w).2).2.observable = (m.Sync d env w).2.observable ↔
      ¬ m.syncsThenActs w) ∧
    ((r.Sync env (r.Sync env w).2).2.observable = (r.Sync env w).2.observable ↔
      ¬ r.syncsThenInitializes w) ∧
    (¬ master.syncsThenInitializes w →
      (m.Sync d env (m.Sync d env w).2).2.state = (m.Sync d env w).2.state) ∧
    (¬ r.syncsThenInitializes w →
      (r.Sync env (r.Sync env w).2).2.state = (r.Sync env w).2.state) := by
  have hB : bundleInitSucceeded env w.sysBundleExists = true := by
    simp [bundleInitSucceeded, hNode, hObject, hCells]
  refine ⟨?_, ?_, ?_, ?_⟩
  · rw [master.Sync_world, master.Sync_world]
    exact master.doSync_twice_observable d m env w script hSync hRemove hCreate hLedger hScript
  · exact tabletNode.doSync_twice_observable_tablet r env w hSync hRemove hB hLedger
  · intro hNot
    rw [master.Sync_world, master.Sync_world]
    exact master.doSync_twice d m env w script hSync hRemove hCreate hLedger hScript hNot
  · intro hNot
    exact tabletNode.doSync_twice_tablet r env w hSync hRemove hB hLedger hNot

/-- Witness of C16 with every call succeeding: at a cluster whose master server is out of sync
with ready pods and a recorded Init Job, two `master.Sync` leave the same observable state as
one; at a fresh cluster two `tabletNode.Sync` leave the bundles initialized and recorded
exactly as one does. -/
theorem C16_component_sync_idempotent_witness :
    master.syncsThenInitializes World.doneOutOfSync ∧
    (NewMaster.Sync Deps.sample Env.allOk
      (NewMaster.Sync Deps.sample Env.allOk World.doneOutOfSync).2).2.observable
      = (NewMaster.Sync Deps.sample Env.allOk World.doneOutOfSync).2.observable ∧
    ((NewTabletNode true).Sync Env.allOk
      ((NewTabletNode true).Sync Env.allOk World.fresh).2).2.state
      = ((NewTabletNode true).Sync Env.allOk World.fresh).2.state ∧
    ((NewTabletNode true).Sync Env.allOk World.fresh).2.sysBundleExists = true :=
  ⟨⟨by decide, by decide, rfl, rfl⟩,
    (C16_component_sync_idempotent Deps.sample NewMaster (NewTabletNode true) Env.allOk
      World.doneOutOfSync _ rfl rfl rfl rfl rfl rfl rfl (fun _ => rfl)).1.mpr
      (fun h => h.2.1 (by decide)),
    (C16_component_sync_idempotent Deps.sample NewMaster (NewTabletNode true) Env.allOk
      World.fresh _ rfl rfl rfl rfl rfl rfl rfl (fun _ => rfl)).2.2.2
      (by simp [tabletNode.syncsThenInitializes, World.fresh]),
    by decide⟩

/-- Counterexample to C17 as stated: with the Task present and not completed and the
condition not `True`, `InitJob.Sync` returns `(Blocked, nil)` after the same three reads for
both values of `dry`; the outcomes do not differ. -/
theorem C17_counterexample :
    conditionValue World.jobRunning.conditions NewMaster.initJob.initCompletedCondition
      ≠ ConditionTrue ∧
    NewMaster.initJob.Sync Env.allOk true World.jobRunning
      = NewMaster.initJob.Sync Env.allOk false World.jobRunning ∧
    (NewMaster.initJob.Sync Env.allOk false World.jobRunning).1 = (SyncStatusBlocked, none) ∧
    (NewMaster.initJob.Sync Env.allOk false World.jobRunning).2.trace =
      [.IsStatusConditionTrue "defaultMasterInitJobCompleted", .Exists, .Completed] := by
  decide

/-- C17 (amended): in `InitJob.Sync` the Done check is the first call made, whatever the state
and `dry` are.  The Done path and the Running path (Task present, not completed) are
independent of `dry`.  In the other two states with the condition not `True`, NotStarted and
Completed-unrecorded, the outcomes differ: `dry=true` issues no mutating call while
`dry=false` issues one (the create, or the ledger write). -/
theorem C17_done_first_and_dry_paths (j : InitJob) (env : Env) (w : World) :
    (∀ dry, (w.since (j.Sync env dry w).2).head?
      = some (.IsStatusConditionTrue j.initCompletedCondition)) ∧
    (conditionValue w.conditions j.initCompletedCondition = ConditionTrue →
      j.Sync env true w = j.Sync env false w) ∧
    (conditionValue w.conditions j.initCompletedCondition ≠ ConditionTrue →
      (w.jobExists = true → w.jobCompleted = false →
        j.Sync env true w = j.Sync env false w) ∧
      (w.jobExists = false ∨ w.jobCompleted = true →
        (w.since (j.Sync env true w).2).filter Call.mutating = [] ∧
        (w.since (j.Sync env false w).2).filter Call.mutating ≠ [])) := by
  refine ⟨?_, ?_, ?_⟩
  · intro dry
    by_cases hc : conditionValue w.conditions j.initCompletedCondition = ConditionTrue
    · rw [InitJob.Sync_done j env dry w hc]
      simp [World.log_eq_logs]
    · cases he : w.jobExists
      · cases dry
        · rw [(InitJob.Sync_notStarted j env w hc he).2.1]
          rfl
        · rw [InitJob.Sync_eq]
          simp [hc, he]
      · cases hk : w.jobCompleted
        · rw [InitJob.Sync_running j env dry w hc he hk]
          simp
        · cases dry
          · rw [(InitJob.Sync_completed j env w hc he hk).2.1]
            rfl
          · rw [InitJob.Sync_eq]
            simp [hc, he, hk]
  · intro hc
    rw [InitJob.Sync_done j env true w hc, InitJob.Sync_done j env false w hc]
  · intro hc
    refine ⟨?_, ?_⟩
    · intro he hk
      rw [InitJob.Sync_running j env true w hc he hk,
        InitJob.Sync_running j env false w hc he hk]
    · intro h
      refine ⟨(InitJob.Sync_dry j env w).2.2.1, ?_⟩
      cases he : w.jobExists
      · rw [(InitJob.Sync_notStarted j env w hc he).2.1]
        cases w.builtJob <;> simp [Call.mutating]
      · have hk : w.jobCompleted = true := by
          rcases h with h | h
          · rw [he] at h; exact absurd h (by decide)
          · exact h
        rw [(InitJob.Sync_completed j env w hc he hk).2.1]
        simp [Call.mutating]

/-- Witness of C17 at the master's Init Job in a fresh world (NotStarted): the probe issues
no mutating call, the real pass does. -/
theorem C17_done_first_and_dry_paths_witness :
    (World.fresh.since (NewMaster.initJob.Sync Env.allOk true World.fresh).2).filter
      Call.mutating = [] ∧
    (World.fresh.since (NewMaster.initJob.Sync Env.allOk false World.fresh).2).filter
      Call.mutating ≠ [] :=
  (C17_done_first_and_dry_paths NewMaster.initJob Env.allOk World.fresh).2.2 (by decide)
    |>.2 (Or.inl rfl)

/-- The calls of one `InitJob.Sync`: all calls of the Init Job, and a Resource Store sync among
them happens only with `dry=false`, carries the script the built config map holds, and on
success stores it. -/
theorem InitJob.Sync_trace_script (j : InitJob) (env : Env) (dry : Bool) (w : World) :
    ∃ l, (j.Sync env dry w).2.trace = w.trace ++ l ∧ (∀ c ∈ l, c.ofInitJobSync = true) ∧
      ∀ s, Call.ResourcesSync s ∈ l →
        s = w.initScript ∧ dry = false ∧
        (env.resourcesSyncErr = none →
          (j.Sync env dry w).2.storedConfigMap = some w.initScript ∧
          (j.Sync env dry w).2.jobExists = true) := by
  rw [InitJob.Sync_eq]
  split_ifs with h1 h2 h3 h4 h5
  · exact ⟨_, rfl, by simp [Call.ofInitJobSync], by simp⟩
  · exact ⟨_, rfl, by simp [Call.ofInitJobSync], by simp⟩
  · have hd : dry = false := by cases dry <;> simp_all
    cases hb : w.builtJob <;> cases hs : env.resourcesSyncErr
    all_goals
      simp only [InitJob.Build, resources.Sync, World.log, World.logs, hb, hs,
        Bool.false_eq_true, if_false, if_true, List.append_assoc]
      exact ⟨_, rfl, by simp [Call.ofInitJobSync], by simp [hd]⟩
  · exact ⟨_, rfl, by simp [Call.ofInitJobSync], by simp⟩
  · exact ⟨_, rfl, by simp [Call.ofInitJobSync], by simp⟩
  · cases hs : env.setStatusConditionErr
    all_goals
      simp only [SetStatusCondition, World.log, World.logs, hs, List.append_assoc]
      exact ⟨_, rfl, by simp [Call.ofInitJobSync], by simp⟩

theorem master.guardCalls_noSync (w : World) (s : Option String) :
    Call.ResourcesSync s ∉ master.guardCalls w := by
  unfold master.guardCalls
  split_ifs <;> simp

/-- C18: script before Task.  In a `master.doSync(dry=false)` pass that reaches the Init Job
and in which `createInitScript` returns, the calls are the guards' reads, `NeedSync`,
`ArePodsReady`, then `SetInitScript` with the bootstrap script, then the calls of
`InitJob.Sync`.  In every pass of `master.doSync`, for either `dry`, a Resource Store sync of
the Init Job's config and Task happens only with `dry=false`, only after `SetInitScript` was
called in that pass with the script `createInitScript` returned, carries exactly that script,
and on success leaves it stored in the config map next to the created Task. -/
theorem C18_script_before_task (d : Deps) (m : master) (env : Env) (dry : Bool) (w : World) :
    (∀ script,
      ¬ (w.clusterState = ClusterStateRunning ∧ w.needUpdate = true) →
      ¬ (w.clusterState = ClusterStateUpdating ∧
        w.updateState = UpdateStateWaitingForPodsRemoval ∧
        w.localUpdatingComponents = none) →
      w.needSync = false → w.podsReady = true →
      m.createInitScript d env = .ok script →
      ∃ l, w.since (m.doSync d env false w).2 =
          master.guardCalls w ++ [.NeedSync, .ArePodsReady, .SetInitScript script] ++ l ∧
        ∀ c ∈ l, c.ofInitJobSync = true) ∧
    (∀ s, Call.ResourcesSync s ∈ w.since (m.doSync d env dry w).2 →
      dry = false ∧
      ∃ script l1 l2, m.createInitScript d env = .ok script ∧ s = some script ∧
        w.since (m.doSync d env dry w).2 = l1 ++ [.SetInitScript script] ++ l2 ∧
        (∀ s1, Call.ResourcesSync s1 ∉ l1) ∧ Call.ResourcesSync (some script) ∈ l2 ∧
        (env.resourcesSyncErr = none →
          (m.doSync d env dry w).2.storedConfigMap = some (some script) ∧
          (m.doSync d env dry w).2.jobExists = true)) := by
  constructor
  · intro script h1 h2 hs hp hscript
    obtain ⟨l, hl, hall, -⟩ := InitJob.Sync_trace_script m.initJob env false
      (m.initJob.SetInitScript script
        (w.logs (master.guardCalls w ++ [.NeedSync, .ArePodsReady])))
    refine ⟨l, ?_, hall⟩
    rw [master.doSync_eq]
    simp only [h1, h2, hs, hp, hscript, if_false, Bool.false_eq_true, Bool.true_eq_false]
    exact since_append w _ _ (by
      rw [hl, InitJob.SetInitScript, World.log, World.logs_trace]
      simp)
  · intro s hmem
    have hg := master.guardCalls_noSync w
    rw [master.doSync_eq] at hmem ⊢
    split_ifs at hmem ⊢ with h1 h2 h3 h4 h5 h6
    · simp at hmem
    · rw [removePods_since] at hmem
      simp [hg] at hmem
    · simp [hg] at hmem
    · rw [server.Sync_since] at hmem
      simp [hg] at hmem
    · simp [hg] at hmem
    · exfalso
      obtain ⟨l, hl, -, hres⟩ := InitJob.Sync_trace_script m.initJob env true
        (w.logs (master.guardCalls w ++ [.NeedSync, .ArePodsReady]))
      rw [since_append w _ _ (by rw [hl, World.logs_trace, List.append_assoc])] at hmem
      simp only [List.mem_append, hg, false_or, List.mem_cons, reduceCtorEq,
        List.mem_singleton, List.not_mem_nil, or_false] at hmem
      exact absurd (hres s hmem).2.1 (by decide)
    · have hd : dry = false := by cases dry <;> simp_all
      refine ⟨hd, ?_⟩
      cases hscript : m.createInitScript d env with
      | error e =>
        rw [hscript] at hmem
        simp [hg] at hmem
      | ok script =>
        rw [hscript] at hmem
        simp only at hmem ⊢
        obtain ⟨l, hl, -, hres⟩ := InitJob.Sync_trace_script m.initJob env false
          (m.initJob.SetInitScript script
            (w.logs (master.guardCalls w ++ [.NeedSync, .ArePodsReady])))
        have hsince : w.since (m.initJob.Sync env false (m.initJob.SetInitScript script
            (w.logs (master.guardCalls w ++ [.NeedSync, .ArePodsReady])))).2 =
            (master.guardCalls w ++ [.NeedSync, .ArePodsReady]) ++ [.SetInitScript script]
              ++ l :=
          since_append w _ _ (by
            rw [hl, InitJob.SetInitScript, World.log, World.logs_trace]
            simp)
        rw [hsince] at hmem
        have hin : Call.ResourcesSync s ∈ l := by
          simpa [hg] using hmem
        obtain ⟨hs, -, hstore⟩ := hres s hin
        have hs1 : s = some script := by
          rw [hs]; rfl
        refine ⟨script, master.guardCalls w ++ [.NeedSync, .ArePodsReady], l, rfl, hs1, hsince,
          ?_, by rw [← hs1]; exact hin, ?_⟩
        · intro s1
          simp [hg]
        · intro hok
          exact hstore hok

/-- Witness of C18 at a fresh cluster with every call succeeding: the real pass of the master
sets the sample bootstrap script right after its reads and before the Init Job's calls. -/
theorem C18_script_before_task_witness :
    ∃ l, World.fresh.since (NewMaster.doSync Deps.sample Env.allOk false World.fresh).2 =
        master.guardCalls World.fresh ++
          [.NeedSync, .ArePodsReady, .SetInitScript Deps.sampleScript] ++ l ∧
      ∀ c ∈ l, c.ofInitJobSync = true :=
  (C18_script_before_task Deps.sample NewMaster Env.allOk false World.fresh).1
    Deps.sampleScript (by decide) (by decide) rfl rfl rfl

/-- C19: `prepareRestart` atomicity.  With `dry=false`, `InitJob.prepareRestart` reads the
Task's presence, issues a delete with foreground propagation exactly when the Task exists; if
that delete fails it returns the error, makes no ledger write and leaves the conditions
unchanged; otherwise it writes the condition `False` with reason `InitJobNeedRestart` and
returns the ledger's result, the condition being `False` when the write succeeded. -/
theorem C19_prepareRestart_atomicity (j : InitJob) (env : Env) (w : World) :
    (Call.DeleteObject true ∈ w.since (j.prepareRestart env false w).2 ↔ w.jobExists = true) ∧
    (∀ e, w.jobExists = true → env.deleteObjectErr = some e →
      (j.prepareRestart env false w).1 = some e ∧
      w.since (j.prepareRestart env false w).2 = [.Exists, .DeleteObject true] ∧
      (j.prepareRestart env false w).2.conditions = w.conditions) ∧
    (w.jobExists = false ∨ env.deleteObjectErr = none →
      (j.prepareRestart env false w).1 = env.setStatusConditionErr ∧
      w.since (j.prepareRestart env false w).2 =
        [.Exists] ++ (if w.jobExists then [.DeleteObject true] else []) ++
          [.SetStatusCondition j.needRestart] ∧
      j.needRestart.status = ConditionFalse ∧
      j.needRestart.reason = "InitJobNeedRestart" ∧
      (env.setStatusConditionErr = none →
        conditionValue (j.prepareRestart env false w).2.conditions j.initCompletedCondition
          = ConditionFalse) ∧
      (env.setStatusConditionErr ≠ none →
        (j.prepareRestart env false w).2.conditions = w.conditions)) := by
  have hF := conditionValue_setCondition w.conditions j.needRestart
  simp only [InitJob.needRestart] at hF
  cases he : w.jobExists <;> cases hd : env.deleteObjectErr <;>
    cases hs : env.setStatusConditionErr <;>
    simp [InitJob.prepareRestart, InitJob.removeIfExists, SetStatusCondition, DeleteObject,
      resources.Exists, World.log, World.since, InitJob.needRestart, he, hd, hs, hF]

/-- Witness of C19 at the master's Init Job with its completion recorded and a failing
delete: the error is returned and the condition stays `True`. -/
theorem C19_prepareRestart_atomicity_witness :
    (NewMaster.initJob.prepareRestart Env.deleteFails false World.initDone).1
      = some "delete failed" ∧
    (NewMaster.initJob.prepareRestart Env.deleteFails false World.initDone).2.conditions
      = World.initDone.conditions :=
  ⟨((C19_prepareRestart_atomicity NewMaster.initJob Env.deleteFails World.initDone).2.1
      "delete failed" rfl rfl).1,
    ((C19_prepareRestart_atomicity NewMaster.initJob Env.deleteFails World.initDone).2.1
      "delete failed" rfl rfl).2.2⟩

/-- The calls of one `InitJob.Sync`, by state and mode. -/
theorem InitJob.Sync_calls (j : InitJob) (env : Env) (dry : Bool) (w : World) :
    w.since (j.Sync env dry w).2 =
      if conditionValue w.conditions j.initCompletedCondition = ConditionTrue then
        [.IsStatusConditionTrue j.initCompletedCondition]
      else if w.jobExists = false then
        [.IsStatusConditionTrue j.initCompletedCondition, .Exists] ++
          (if dry then []
           else (if w.builtJob then [] else [.JobBuild]) ++ [.ResourcesSync w.initScript])
      else
        [.IsStatusConditionTrue j.initCompletedCondition, .Exists, .Completed] ++
          (if w.jobCompleted = true ∧ dry = false then [.SetStatusCondition j.completed]
           else []) := by
  by_cases hc : conditionValue w.conditions j.initCompletedCondition = ConditionTrue
  · rw [InitJob.Sync_done j env dry w hc]
    simp [hc, World.log_eq_logs]
  · cases he : w.jobExists
    · cases dry
      · rw [(InitJob.Sync_notStarted j env w hc he).2.1]
        simp [hc]
      · rw [InitJob.Sync_eq]
        simp [hc, he]
    · cases hk : w.jobCompleted
      · rw [InitJob.Sync_running j env dry w hc he hk]
        simp [hc]
      · cases dry
        · rw [(InitJob.Sync_completed j env w hc he hk).2.1]
          simp [hc, InitJob.completed]
        · rw [InitJob.Sync_eq]
          simp [hc, he, hk]

/-- The calls of one `InitJob.prepareRestart`. -/
theorem InitJob.prepareRestart_since (j : InitJob) (env : Env) (dry : Bool) (w : World) :
    w.since (j.prepareRestart env dry w).2 =
      if dry then []
      else
        [.Exists] ++ (if w.jobExists then [.DeleteObject true] else []) ++
          (if w.jobExists = true ∧ env.deleteObjectErr.isSome then []
           else [.SetStatusCondition j.needRestart]) := by
  cases dry <;> cases he : w.jobExists <;> cases hd : env.deleteObjectErr <;>
    cases hs : env.setStatusConditionErr <;>
    simp [InitJob.prepareRestart, InitJob.removeIfExists, SetStatusCondition, DeleteObject,
      resources.Exists, World.log, World.since, InitJob.needRestart, he, hd, hs]

/-- C20: completion is recorded only after observed completion.  `InitJob.Sync` calls
`SetStatusCondition` with value `True` if and only if `dry=false`, the completion condition is
not already `True`, the Task exists and the Task reports completed, and the only condition it
ever writes is that one; `prepareRestart` writes only the value `False`; `removeIfExists`,
`isRestartPrepared`, `isRestartCompleted`, `SetInitScript` and `Build` write no condition;
and a single `Sync` call never both syncs the Task to the Resource Store and writes the
condition. -/
theorem C20_completion_after_observation (j : InitJob) (env : Env) (w : World) :
    (∀ dry, (∃ c, c.status = ConditionTrue ∧
        Call.SetStatusCondition c ∈ w.since (j.Sync env dry w).2) ↔
      (dry = false ∧
        conditionValue w.conditions j.initCompletedCondition ≠ ConditionTrue ∧
        w.jobExists = true ∧ w.jobCompleted = true)) ∧
    (∀ dry c, Call.SetStatusCondition c ∈ w.since (j.Sync env dry w).2 → c = j.completed) ∧
    (∀ dry c, Call.SetStatusCondition c ∈ w.since (j.prepareRestart env dry w).2 →
      c.status = ConditionFalse) ∧
    (∀ c script,
      Call.SetStatusCondition c ∉ w.since (j.removeIfExists env w).2 ∧
      Call.SetStatusCondition c ∉ w.since (j.isRestartPrepared w).2 ∧
      Call.SetStatusCondition c ∉ w.since (j.isRestartCompleted w).2 ∧
      Call.SetStatusCondition c ∉ w.since (j.SetInitScript script w) ∧
      Call.SetStatusCondition c ∉ w.since (j.Build w)) ∧
    (∀ dry s c, ¬ (Call.ResourcesSync s ∈ w.since (j.Sync env dry w).2 ∧
      Call.SetStatusCondition c ∈ w.since (j.Sync env dry w).2)) := by
  refine ⟨?_, ?_, ?_, ?_, ?_⟩
  · intro dry
    rw [InitJob.Sync_calls]
    by_cases hc : conditionValue w.conditions j.initCompletedCondition = ConditionTrue
    · simp [hc]
    · cases he : w.jobExists <;> cases hk : w.jobCompleted <;> cases dry <;>
        cases hb : w.builtJob <;> simp [hc, InitJob.completed]
  · intro dry c
    rw [InitJob.Sync_calls]
    by_cases hc : conditionValue w.conditions j.initCompletedCondition = ConditionTrue
    · simp [hc]
    · cases he : w.jobExists <;> cases hk : w.jobCompleted <;> cases dry <;>
        cases hb : w.builtJob <;> simp [hc]
  · intro dry c
    rw [InitJob.prepareRestart_since]
    cases dry <;> cases he : w.jobExists <;> cases hd : env.deleteObjectErr <;>
      simp [InitJob.needRestart]
    all_goals
      intro h
      rw [h]
  · intro c script
    refine ⟨?_, ?_, ?_, ?_, ?_⟩
    · cases he : w.jobExists <;> cases hd : env.deleteObjectErr <;>
        simp [InitJob.removeIfExists, DeleteObject, resources.Exists, World.log, World.since,
          he, hd]
    · cases he : w.jobExists <;>
        simp [InitJob.isRestartPrepared, IsStatusConditionFalse, resources.Exists, World.log,
          World.since, he]
    · simp [InitJob.isRestartCompleted, IsStatusConditionTrue, World.log, World.since]
    · simp [InitJob.SetInitScript, World.log, World.since]
    · cases hb : w.builtJob <;> simp [InitJob.Build, World.log, World.since, hb]
  · intro dry s c
    rw [InitJob.Sync_calls]
    by_cases hc : conditionValue w.conditions j.initCompletedCondition = ConditionTrue
    · simp [hc]
    · cases he : w.jobExists <;> cases hk : w.jobCompleted <;> cases dry <;>
        cases hb : w.builtJob <;> simp [hc]

/-- Witness of C20 at the master's Init Job with the Task completed and unrecorded: the real
pass writes the condition with value `True`. -/
theorem C20_completion_after_observation_witness :
    ∃ c, c.status = ConditionTrue ∧
      Call.SetStatusCondition c ∈ World.completedUnrecorded.since
        (NewMaster.initJob.Sync Env.allOk false World.completedUnrecorded).2 :=
  ((C20_completion_after_observation NewMaster.initJob Env.allOk
    World.completedUnrecorded).1 false).mpr ⟨rfl, by decide, rfl, rfl⟩

end YtOp
